import Mathlib

/-!
Courier channel handlers: Globe Labs (GL), High Connection (HX), Start Mobile (ST)

A shallow embedding of the three handler packages
`handlers/globe/globe.go`, `handlers/highconnection/highconnection.go` and
`handlers/start/start.go`, followed by theorems about their `SendMsg`,
`receiveMessage` and `receiveStatus` functions.

Conventions of the embedding.

* Go strings are Lean strings; `strings.HasPrefix`, `strings.TrimPrefix` and
  the slice `s[4:]` act on the character list.
* The outbound HTTP transport (`utils.MakeHTTPRequest`) is an explicit state:
  the requests made so far, and the outcomes the network will give to the
  calls still to come.  A handler takes a transport state and returns the
  new one next to its Go result, so the calls it made can be counted.
* A Go result `(courier.MsgStatus, error)` is an `Except String MsgStatus`.
* Functions of the `handlers` and standard-library packages that the three
  files call but do not define are parameters (`Deps`, and one `Codec` per
  package), except `strconv.ParseInt` and the XML encoder, whose results the
  Start handler branches on and which are spelled out.
* In the error texts `%s` and `%d` are string concatenation and the decimal
  rendering of an integer.
-/

namespace courier

/-! ## The `courier` package types the handlers use -/

/-- Modelled from the spec: the canonical delivery status enumeration
(Wired, Sent, Delivered, Failed, Errored), `courier.MsgStatusValue` in the
code, whose declaration is outside the three handler files. -/
inductive MsgStatusValue
  | MsgWired
  | MsgSent
  | MsgDelivered
  | MsgFailed
  | MsgErrored
  deriving DecidableEq, Repr

/-- Modelled from the spec: a Channel, with its UUID, address, country and
key-value configuration map. -/
structure Channel where
  UUID : String
  Address : String
  Country : String
  Config : List (String × String)
  deriving DecidableEq, Repr

/-- Modelled from the spec: typed configuration lookup
`stringConfig(channel, key, default) -> string`: the configured value, or the
default when the key is absent. -/
def Channel.StringConfigForKey (c : Channel) (key defaultValue : String) : String :=
  (c.Config.lookup key).getD defaultValue

/-- Modelled from the spec: the `courier.ConfigUsername` key. -/
def ConfigUsername : String := "username"

/-- Modelled from the spec: the `courier.ConfigPassword` key. -/
def ConfigPassword : String := "password"

/-- Modelled from the spec: the key of the channel's callback domain. -/
def ConfigCallbackDomain : String := "callback_domain"

/-- Modelled from the spec: the callback domain of a channel, the configured
one or else the server's domain. -/
def Channel.CallbackDomain (c : Channel) (fallbackDomain : String) : String :=
  c.StringConfigForKey ConfigCallbackDomain fallbackDomain

/-- A contact identity: scheme and path (`tel` and an E.164 number). -/
structure URN where
  Scheme : String
  Path : String
  deriving DecidableEq, Repr

/-- An outbound message, the read-only input of `SendMsg`. -/
structure Msg where
  ID : Int
  Channel : Channel
  URN : URN
  Text : String
  Attachments : List String
  deriving DecidableEq, Repr

/-- An inbound message as built by `NewIncomingMsg(..).WithExternalID(..).WithReceivedOn(..)`.
`ReceivedOn` is in seconds since the Unix epoch, UTC. -/
structure IncomingMsg where
  Channel : Channel
  URN : URN
  Text : String
  ExternalID : String
  ReceivedOn : Int
  deriving DecidableEq, Repr

/-! ## The transport collaborator -/

/-- An outgoing HTTP request as the handlers build it. -/
structure Request where
  Method : String
  URL : String
  Headers : List (String × String)
  BasicAuth : Option (String × String)
  Body : Option String
  deriving DecidableEq, Repr

/-- The `utils.RequestResponse` trace of one exchange, as far as the handlers read it. -/
structure RequestResponse where
  StatusCode : Int
  Body : String
  deriving DecidableEq, Repr

/-- What `utils.MakeHTTPRequest` returns: the trace `rr` and the Go `err`
(`none` is `nil`). -/
structure Outcome where
  rr : RequestResponse
  err : Option String
  deriving DecidableEq, Repr

/-- The transport state: the requests sent so far, oldest first, and the
outcome the network will give to each call still to come. -/
structure Transport where
  sent : List Request
  pending : Nat → Outcome

/-- A transport on which nothing has been sent yet and whose `i`-th call
(0-based) will have outcome `o i`. -/
def Transport.fresh (o : Nat → Outcome) : Transport :=
  { sent := [], pending := o }

/-- One call of `utils.MakeHTTPRequest(req)`: the request is recorded, the next
pending outcome is consumed and returned. -/
def MakeHTTPRequest (t : Transport) (req : Request) : Outcome × Transport :=
  (t.pending 0, { sent := t.sent ++ [req], pending := fun i => t.pending (i + 1) })

/-! ## Channel logs and message statuses -/

/-- A request/response/error audit record keyed by message id. -/
structure ChannelLog where
  Description : String
  Channel : Channel
  MsgID : Int
  StatusCode : Int
  Response : String
  Error : Option String
  deriving DecidableEq, Repr

/-- Modelled from the spec: `courier.NewChannelLogFromRR`, the log entry of one
request/response pair. -/
def NewChannelLogFromRR (description : String) (channel : Channel) (msgID : Int)
    (rr : RequestResponse) : ChannelLog :=
  { Description := description, Channel := channel, MsgID := msgID,
    StatusCode := rr.StatusCode, Response := rr.Body, Error := none }

/-- Modelled from the spec: `ChannelLog.WithError`, which records the error and
its description when there is one and leaves the entry alone otherwise. -/
def ChannelLog.WithError (l : ChannelLog) (description : String) (err : Option String) :
    ChannelLog :=
  match err with
  | some e => { l with Description := description, Error := some e }
  | none => l

/-- The status of one outbound message: `ExternalID` is `none` until
`SetExternalID` is called. -/
structure MsgStatus where
  Channel : Channel
  ID : Int
  Status : MsgStatusValue
  ExternalID : Option String
  Logs : List ChannelLog
  deriving DecidableEq, Repr

/-- Modelled from the spec: `Backend.NewMsgStatusForID(channel, id, status)`, a
status with no external id and no logs. -/
def NewMsgStatusForID (channel : Channel) (id : Int) (status : MsgStatusValue) : MsgStatus :=
  { Channel := channel, ID := id, Status := status, ExternalID := none, Logs := [] }

/-- The method `status.AddLog(log)`: append-only. -/
def MsgStatus.AddLog (s : MsgStatus) (log : ChannelLog) : MsgStatus :=
  { s with Logs := s.Logs ++ [log] }

/-- The method `status.SetStatus(v)`. -/
def MsgStatus.SetStatus (s : MsgStatus) (v : MsgStatusValue) : MsgStatus :=
  { s with Status := v }

/-- The method `status.SetExternalID(id)`. -/
def MsgStatus.SetExternalID (s : MsgStatus) (id : String) : MsgStatus :=
  { s with ExternalID := some id }

/-! ## The `handlers` package helpers -/

/-- What a receive handler did with an inbound request. `requestError` is
`handlers.WriteAndLogRequestError` (no event, the error is returned),
`ignored` is `handlers.WriteAndLogRequestIgnored`, `wroteMsgs` is
`handlers.WriteMsgsAndResponse` with the messages handed to the write step,
`wroteStatus` is `handlers.WriteMsgStatusAndResponse`. -/
inductive ReceiveResult
  | requestError (err : String)
  | ignored (details : String)
  | wroteMsgs (msgs : List IncomingMsg)
  | wroteStatus (status : MsgStatus)
  deriving DecidableEq, Repr

/-- An inbound HTTP request: the raw body and the query string. -/
structure InboundRequest where
  Body : String
  Query : String
  deriving DecidableEq, Repr

/-- The helpers of package `handlers` that every handler shares and that the
three files only call: attachment folding, text splitting and strict phone
number normalisation. -/
structure Deps where
  GetTextAndAttachments : Msg → String
  SplitMsg : String → Nat → List String
  StrictTelForCountry : String → String → Except String URN

/-- Go `strings.HasPrefix`. -/
def HasPrefix (s pre : String) : Bool :=
  pre.data.isPrefixOf s.data

/-- Go `strings.TrimPrefix`: `s` without the leading `pre` when it has it, else `s`. -/
def TrimPrefix (s pre : String) : String :=
  if HasPrefix s pre then String.mk (s.data.drop pre.data.length) else s

/-! ## Package `globe` (channel type GL) -/

namespace globe

def maxMsgLength : Nat := 160

/-- The format `sendURL` filled with the channel address by `fmt.Sprintf`. -/
def sendURL (address : String) : String :=
  "https://devapi.globelabs.com.ph/smsmessaging/v1/outbound/" ++ address ++ "/requests"

def configPassphrase : String := "passphrase"

def configAppSecret : String := "app_secret"

def configAppID : String := "app_id"

/-- One entry of `inboundSMSMessage`. -/
structure InboundSMSMessage where
  DateTime : String
  DestinationAddress : String
  MessageID : String
  Message : String
  SenderAddress : String
  deriving DecidableEq, Repr

/-- The decoded inbound envelope: the list under `inboundSMSMessageList.inboundSMSMessage`. -/
structure moPayload where
  InboundSMSMessage : List InboundSMSMessage
  deriving DecidableEq, Repr

/-- The outbound JSON object. -/
structure mtPayload where
  Address : String
  Message : String
  Passphrase : String
  AppID : String
  AppSecret : String
  deriving DecidableEq, Repr

/-- Library calls of the Globe handler: `handlers.DecodeAndValidateJSON` into a
`moPayload`, `time.Parse` with the layout `Mon Jan 2 2006 15:04:05 GMT+0000 (UTC)`
(the result in Unix seconds) and `json.NewEncoder(..).Encode`, whose error the
handler does not look at. -/
structure Codec where
  DecodeAndValidateJSON : InboundRequest → Except String moPayload
  ParseTime : String → Except String Int
  jsonEncode : mtPayload → String

/-- The body of the loop `for _, glMsg := range ...InboundSMSMessage` of
`receiveMessage`, with `msgs` the messages built so far; after the last entry
the messages go to `handlers.WriteMsgsAndResponse`. -/
def receiveEntries (D : Deps) (X : Codec) (c : Channel) :
    List InboundSMSMessage → List IncomingMsg → ReceiveResult
  | [], msgs => ReceiveResult.wroteMsgs msgs
  | glMsg :: rest, msgs =>
    match X.ParseTime glMsg.DateTime with
    | Except.error err => ReceiveResult.requestError err
    | Except.ok date =>
      if !HasPrefix glMsg.SenderAddress "tel:" then
        ReceiveResult.requestError "invalid 'senderAddress' parameter"
      else
        match D.StrictTelForCountry (String.mk (glMsg.SenderAddress.data.drop 4)) c.Country with
        | Except.error err => ReceiveResult.requestError err
        | Except.ok urn =>
          let msg : IncomingMsg :=
            { Channel := c, URN := urn, Text := glMsg.Message,
              ExternalID := glMsg.MessageID, ReceivedOn := date }
          receiveEntries D X c rest (msgs ++ [msg])

/-- The HTTP handler `receiveMessage` for incoming messages. -/
def receiveMessage (D : Deps) (X : Codec) (c : Channel) (r : InboundRequest) : ReceiveResult :=
  match X.DecodeAndValidateJSON r with
  | Except.error err => ReceiveResult.requestError err
  | Except.ok payload =>
    if payload.InboundSMSMessage.length = 0 then
      ReceiveResult.ignored "no messages, ignored"
    else
      receiveEntries D X c payload.InboundSMSMessage []

/-- The payload built for one part in the loop of `SendMsg`. -/
def partPayload (msg : Msg) (appID appSecret passphrase part : String) : mtPayload :=
  { Address := TrimPrefix msg.URN.Path "+", Message := part, Passphrase := passphrase,
    AppID := appID, AppSecret := appSecret }

/-- The request built for one part in the loop of `SendMsg`. -/
def partRequest (X : Codec) (msg : Msg) (appID appSecret passphrase part : String) : Request :=
  { Method := "POST", URL := sendURL msg.Channel.Address,
    Headers := [("Content-Type", "application/json"), ("Accept", "application/json")],
    BasicAuth := none,
    Body := some (X.jsonEncode (partPayload msg appID appSecret passphrase part)) }

/-- The loop `for _, part := range parts` of `SendMsg`: the status and the
transport after the loop, or at the early return. -/
def sendParts (X : Codec) (msg : Msg) (appID appSecret passphrase : String) :
    List String → MsgStatus → Transport → MsgStatus × Transport
  | [], status, t => (status, t)
  | part :: rest, status, t =>
    let req := partRequest X msg appID appSecret passphrase part
    let (out, t1) := MakeHTTPRequest t req
    let log := (NewChannelLogFromRR "Message Sent" msg.Channel msg.ID out.rr).WithError
      "Message Send Error" out.err
    let status1 := status.AddLog log
    match out.err with
    | some _ => (status1, t1)
    | none => sendParts X msg appID appSecret passphrase rest
        (status1.SetStatus MsgStatusValue.MsgWired) t1

/-- The function `SendMsg`: sends the passed in message, returning any error. -/
def SendMsg (D : Deps) (X : Codec) (msg : Msg) (t : Transport) :
    Except String MsgStatus × Transport :=
  let appID := msg.Channel.StringConfigForKey configAppID ""
  if appID = "" then
    (Except.error "Missing 'app_id' config for GL channel", t)
  else
    let appSecret := msg.Channel.StringConfigForKey configAppSecret ""
    if appSecret = "" then
      (Except.error "Missing 'app_secret' config for GL channel", t)
    else
      let passphrase := msg.Channel.StringConfigForKey configPassphrase ""
      if passphrase = "" then
        (Except.error "Missing 'passphrase' config for GL channel", t)
      else
        let status := NewMsgStatusForID msg.Channel msg.ID MsgStatusValue.MsgErrored
        let parts := D.SplitMsg (D.GetTextAndAttachments msg) maxMsgLength
        let (status1, t1) := sendParts X msg appID appSecret passphrase parts status t
        (Except.ok status1, t1)

end globe

/-! ## Package `highconnection` (channel type HX) -/

namespace highconnection

def sendURL : String := "https://highpushfastapi-v2.hcnx.eu/api"

def maxMsgLength : Nat := 1500

/-- The decoded status form (`ret_id`, `status`). -/
structure statusForm where
  RetID : Int
  Status : Int
  deriving DecidableEq, Repr

/-- The table `statusMapping`. -/
def statusMapping : List (Int × MsgStatusValue) :=
  [ (2, MsgStatusValue.MsgFailed),
    (4, MsgStatusValue.MsgSent),
    (6, MsgStatusValue.MsgDelivered),
    (11, MsgStatusValue.MsgFailed),
    (12, MsgStatusValue.MsgFailed),
    (13, MsgStatusValue.MsgFailed),
    (14, MsgStatusValue.MsgFailed),
    (15, MsgStatusValue.MsgFailed),
    (16, MsgStatusValue.MsgFailed) ]

/-- Library calls of the High Connection handler: `handlers.DecodeAndValidateForm`
into a `statusForm`, and the query string and URL built by `url.Values.Encode`
and `URL.String` from the form values. -/
structure Codec where
  DecodeAndValidateForm : InboundRequest → Except String statusForm
  urlWithQuery : String → List (String × List String) → String

/-- The text of `fmt.Errorf` for a status code outside the table; `toString` on
an integer prints it in decimal like the verb `%d`. -/
def unknownStatus (status : Int) : String :=
  "unknown status '" ++ toString status ++ "', must be one of 2, 4, 6, 11, 12, 13, 14, 15  or 16"

/-- The HTTP handler `receiveStatus` for status updates. -/
def receiveStatus (X : Codec) (channel : Channel) (r : InboundRequest) : ReceiveResult :=
  match X.DecodeAndValidateForm r with
  | Except.error err => ReceiveResult.requestError err
  | Except.ok form =>
    match statusMapping.lookup form.Status with
    | none => ReceiveResult.requestError (unknownStatus form.Status)
    | some msgStatus =>
      ReceiveResult.wroteStatus (NewMsgStatusForID channel form.RetID msgStatus)

/-- The `url.Values` built for one part in the loop of `SendMsg`. -/
def partForm (msg : Msg) (username password statusURL receiveURL part : String) :
    List (String × List String) :=
  [ ("accountid", [username]),
    ("password", [password]),
    ("text", [part]),
    ("to", [msg.URN.Path]),
    ("ret_id", [toString msg.ID]),
    ("datacoding", ["8"]),
    ("userdata", ["textit"]),
    ("ret_url", [statusURL]),
    ("ret_mo_url", [receiveURL]) ]

/-- The request built for one part in the loop of `SendMsg`. -/
def partRequest (X : Codec) (msg : Msg) (username password statusURL receiveURL part : String) :
    Request :=
  { Method := "POST",
    URL := X.urlWithQuery sendURL (partForm msg username password statusURL receiveURL part),
    Headers := [], BasicAuth := none, Body := none }

/-- The loop `for _, part := range parts` of `SendMsg`. -/
def sendParts (X : Codec) (msg : Msg) (username password statusURL receiveURL : String) :
    List String → MsgStatus → Transport → MsgStatus × Transport
  | [], status, t => (status, t)
  | part :: rest, status, t =>
    let req := partRequest X msg username password statusURL receiveURL part
    let (out, t1) := MakeHTTPRequest t req
    let log := (NewChannelLogFromRR "Message Sent" msg.Channel msg.ID out.rr).WithError
      "Message Send Error" out.err
    let status1 := status.AddLog log
    match out.err with
    | some _ => (status1, t1)
    | none => sendParts X msg username password statusURL receiveURL rest
        (status1.SetStatus MsgStatusValue.MsgWired) t1

/-- The function `SendMsg`; `domain` is `h.Server().Config().Domain`. -/
def SendMsg (D : Deps) (X : Codec) (domain : String) (msg : Msg) (t : Transport) :
    Except String MsgStatus × Transport :=
  let username := msg.Channel.StringConfigForKey ConfigUsername ""
  if username = "" then
    (Except.error "no username set for HX channel", t)
  else
    let password := msg.Channel.StringConfigForKey ConfigPassword ""
    if password = "" then
      (Except.error "no password set for HX channel", t)
    else
      let callbackDomain := msg.Channel.CallbackDomain domain
      let statusURL := "https://" ++ callbackDomain ++ "/c/hx/" ++ msg.Channel.UUID ++ "/status"
      let receiveURL := "https://" ++ callbackDomain ++ "/c/hx/" ++ msg.Channel.UUID ++ "/receive"
      let status := NewMsgStatusForID msg.Channel msg.ID MsgStatusValue.MsgErrored
      let parts := D.SplitMsg (D.GetTextAndAttachments msg) maxMsgLength
      let (status1, t1) := sendParts X msg username password statusURL receiveURL parts status t
      (Except.ok status1, t1)

end highconnection

/-! ## Package `start` (channel type ST) -/

namespace start

def maxMsgLength : Nat := 1600

def sendURL : String := "http://bulk.startmobile.com.ua/clients.php"

/-- The `service` element of an inbound document (its two attributes that are read). -/
structure moService where
  Timestamp : String
  RequestID : String
  deriving DecidableEq, Repr

/-- The `body` element of an inbound document. -/
structure moBody where
  Text : String
  deriving DecidableEq, Repr

/-- The decoded inbound document; an element or attribute that is absent
decodes to the empty string. -/
structure moPayload where
  Service : moService
  From : String
  To : String
  Body : moBody
  deriving DecidableEq, Repr

structure mtBody where
  ContentType : String
  Encoding : String
  Text : String
  deriving DecidableEq, Repr

structure mtService where
  ID : String
  Source : String
  Validity : String
  deriving DecidableEq, Repr

structure mtPayload where
  Service : mtService
  To : String
  Body : mtBody
  deriving DecidableEq, Repr

structure mtResponse where
  ID : String
  State : String
  deriving DecidableEq, Repr

/-- Library calls of the Start handler: `handlers.DecodeAndValidateXML` into a
`moPayload` and `xml.Unmarshal` of a response body into a `mtResponse`. -/
structure Codec where
  DecodeAndValidateXML : InboundRequest → Except String moPayload
  xmlUnmarshal : String → Except String mtResponse

/-- The value of a non-empty run of decimal digits, most significant first,
on top of the value `acc` read so far. -/
def digitsValue : List Char → Nat → Option Nat
  | [], acc => some acc
  | c :: cs, acc =>
    if c.isDigit then digitsValue cs (acc * 10 + (c.toNat - 48)) else none

/-- Go `strconv.ParseInt(s, 10, 64)`: an optional sign, then one or more
decimal digits, the value within the signed 64-bit range; `none` is an error. -/
def ParseInt (s : String) : Option Int :=
  match s.data with
  | [] => none
  | c :: cs =>
    let neg : Bool := c = '-'
    let ds := if c = '+' ∨ c = '-' then cs else c :: cs
    match ds with
    | [] => none
    | _ :: _ =>
      match digitsValue ds 0 with
      | none => none
      | some un =>
        if !neg && un ≥ 2 ^ 63 then none
        else if neg && un > 2 ^ 63 then none
        else some (if neg then -(un : Int) else (un : Int))

/-- The HTTP handler `receiveMessage` for incoming messages. -/
def receiveMessage (D : Deps) (X : Codec) (channel : Channel) (r : InboundRequest) :
    ReceiveResult :=
  match X.DecodeAndValidateXML r with
  | Except.error err => ReceiveResult.requestError err
  | Except.ok payload =>
    if payload.Service.RequestID = "" ∨ payload.From = "" ∨ payload.To = "" then
      ReceiveResult.requestError "missing parameters, must have 'request_id', 'to' and 'body'"
    else
      match D.StrictTelForCountry payload.From channel.Country with
      | Except.error err => ReceiveResult.requestError err
      | Except.ok urn =>
        match ParseInt payload.Service.Timestamp with
        | none =>
          ReceiveResult.requestError ("invalid timestamp: " ++ payload.Service.Timestamp)
        | some ts =>
          ReceiveResult.wroteMsgs
            [{ Channel := channel, URN := urn, Text := payload.Body.Text,
               ExternalID := "", ReceivedOn := ts }]

/-- The replacement `encoding/xml` writes for one character of text or of an
attribute value. -/
def escapeChar (c : Char) : String :=
  if c.toNat = 34 then "&#34;"
  else if c.toNat = 39 then "&#39;"
  else if c.toNat = 38 then "&amp;"
  else if c.toNat = 60 then "&lt;"
  else if c.toNat = 62 then "&gt;"
  else if c.toNat = 9 then "&#x9;"
  else if c.toNat = 10 then "&#xA;"
  else if c.toNat = 13 then "&#xD;"
  else if (32 ≤ c.toNat ∧ c.toNat ≤ 55295) ∨ (57344 ≤ c.toNat ∧ c.toNat ≤ 65533)
      ∨ (65536 ≤ c.toNat ∧ c.toNat ≤ 1114111) then String.singleton c
  else String.singleton (Char.ofNat 65533)

/-- Go `xml.EscapeText` on a string. -/
def escapeText (s : String) : String :=
  String.join (s.data.map escapeChar)

/-- An attribute `name="value"` with the value escaped. -/
def xmlAttr (name value : String) : String :=
  " " ++ name ++ "=" ++ String.singleton (Char.ofNat 34) ++ escapeText value
    ++ String.singleton (Char.ofNat 34)

/-- The document `encoding/xml` writes for a `mtPayload`. -/
def xmlDocument (p : mtPayload) : String :=
  "<message><service" ++ xmlAttr "id" p.Service.ID ++ xmlAttr "source" p.Service.Source
    ++ xmlAttr "validity" p.Service.Validity ++ "></service><to>" ++ escapeText p.To
    ++ "</to><body" ++ xmlAttr "content-type" p.Body.ContentType
    ++ xmlAttr "encoding" p.Body.Encoding ++ ">" ++ escapeText p.Body.Text
    ++ "</body></message>"

/-- The call `xml.NewEncoder(requestBody).Encode(payload)` on a `mtPayload`.
Every field is a string and the writer is an in-memory buffer, so the encoder
has no error to return; the result type keeps the `err` the handler tests. -/
def xmlEncode (p : mtPayload) : Except String String :=
  Except.ok (xmlDocument p)

/-- The payload built for one part in the loop of `SendMsg`. -/
def partPayload (msg : Msg) (part : String) : mtPayload :=
  { Service := { ID := "single", Source := msg.Channel.Address, Validity := "+12 hours" },
    To := msg.URN.Path,
    Body := { ContentType := "plain/text", Encoding := "plain", Text := part } }

/-- The request built from the encoded payload. -/
def partRequest (username password requestBody : String) : Request :=
  { Method := "POST", URL := sendURL,
    Headers := [("Content-Type", "application/xml; charset=utf8")],
    BasicAuth := some (username, password),
    Body := some requestBody }

/-- The loop `for i, part := range parts` of `SendMsg`, from index `i` on.
The log entry is shared by pointer with the status, so the error recorded on
it after `AddLog` is seen in the status. -/
def sendParts (X : Codec) (msg : Msg) (username password : String) :
    Nat → List String → MsgStatus → Transport → Except String MsgStatus × Transport
  | _, [], status, t => (Except.ok status, t)
  | i, part :: rest, status, t =>
    match xmlEncode (partPayload msg part) with
    | Except.error err => (Except.error err, t)
    | Except.ok requestBody =>
      let req := partRequest username password requestBody
      let (out, t1) := MakeHTTPRequest t req
      let log := NewChannelLogFromRR "Message Sent" msg.Channel msg.ID out.rr
      match out.err with
      | some err =>
        (Except.ok (status.AddLog (log.WithError "Message Send Error" (some err))), t1)
      | none =>
        let status1 := status.AddLog log
        match X.xmlUnmarshal out.rr.Body with
        | Except.ok response =>
          let status2 := status1.SetStatus MsgStatusValue.MsgWired
          let status3 := if i = 0 then status2.SetExternalID response.ID else status2
          sendParts X msg username password (i + 1) rest status3 t1
        | Except.error _ =>
          sendParts X msg username password (i + 1) rest status1 t1

/-- The function `SendMsg`. -/
def SendMsg (D : Deps) (X : Codec) (msg : Msg) (t : Transport) :
    Except String MsgStatus × Transport :=
  let username := msg.Channel.StringConfigForKey ConfigUsername ""
  if username = "" then
    (Except.error ("no username set for ST channel: " ++ msg.Channel.UUID), t)
  else
    let password := msg.Channel.StringConfigForKey ConfigPassword ""
    if password = "" then
      (Except.error ("no password set for ST channel: " ++ msg.Channel.UUID), t)
    else
      let status := NewMsgStatusForID msg.Channel msg.ID MsgStatusValue.MsgErrored
      let parts := D.SplitMsg (D.GetTextAndAttachments msg) maxMsgLength
      sendParts X msg username password 0 parts status t

end start

/-! ## The segment loop, in general -/

/-- How many segments of `parts` get a transport call when the `i`-th call has
outcome `o i`: all of them, or those up to and including the first whose call
returns an error. -/
def attempted (o : Nat → Outcome) : List String → Nat
  | [] => 0
  | _ :: rest => if (o 0).err.isSome then 1 else attempted (fun i => o (i + 1)) rest + 1

/-- The loop shared by the Globe and High Connection `SendMsg`, over the
function `mk` that builds the request of a part. -/
def wireLoop (mk : String → Request) (msg : Msg) :
    List String → MsgStatus → Transport → MsgStatus × Transport
  | [], status, t => (status, t)
  | part :: rest, status, t =>
    let (out, t1) := MakeHTTPRequest t (mk part)
    let log := (NewChannelLogFromRR "Message Sent" msg.Channel msg.ID out.rr).WithError
      "Message Send Error" out.err
    let status1 := status.AddLog log
    match out.err with
    | some _ => (status1, t1)
    | none => wireLoop mk msg rest (status1.SetStatus MsgStatusValue.MsgWired) t1

/-- The request of one part in the Start loop: the encoded payload, posted
with basic authentication. -/
def startRequest (msg : Msg) (username password part : String) : Request :=
  start.partRequest username password (start.xmlDocument (start.partPayload msg part))

/-- The Start loop with the encoder's result put in: what `start.sendParts`
computes, without the error wrapper. -/
def startLoop (X : start.Codec) (msg : Msg) (username password : String) :
    Nat → List String → MsgStatus → Transport → MsgStatus × Transport
  | _, [], status, t => (status, t)
  | i, part :: rest, status, t =>
    let (out, t1) := MakeHTTPRequest t (startRequest msg username password part)
    let log := NewChannelLogFromRR "Message Sent" msg.Channel msg.ID out.rr
    match out.err with
    | some err => (status.AddLog (log.WithError "Message Send Error" (some err)), t1)
    | none =>
      match X.xmlUnmarshal out.rr.Body with
      | Except.ok response =>
        startLoop X msg username password (i + 1) rest
          (if i = 0 then
            ((status.AddLog log).SetStatus MsgStatusValue.MsgWired).SetExternalID response.ID
           else (status.AddLog log).SetStatus MsgStatusValue.MsgWired) t1
      | Except.error _ =>
        startLoop X msg username password (i + 1) rest (status.AddLog log) t1

/-- Whether the response of some attempted segment, before any transport
error, parses as a `mtResponse`. -/
def parsedBefore (X : start.Codec) (o : Nat → Outcome) : List String → Bool
  | [] => false
  | _ :: rest =>
    if (o 0).err.isSome then false
    else
      match X.xmlUnmarshal (o 0).rr.Body with
      | Except.ok _ => true
      | Except.error _ => parsedBefore X (fun i => o (i + 1)) rest

/-- The external id the response to segment 0 gives: the `id` element when the
call returned no error and the body parsed, else none. -/
def firstID (X : start.Codec) (out : Outcome) : Option String :=
  match out.err with
  | some _ => none
  | none =>
    match X.xmlUnmarshal out.rr.Body with
    | Except.ok response => some response.ID
    | Except.error _ => none

/-- The segments of a message for a handler whose limit is `max`. -/
def segments (D : Deps) (msg : Msg) (max : Nat) : List String :=
  D.SplitMsg (D.GetTextAndAttachments msg) max

/-- Every one of the first `n` transport calls returns without error. -/
def allSucceed (o : Nat → Outcome) (n : Nat) : Prop :=
  ∀ j, j < n → (o j).err = none

/-- Among `n` transport calls, the one for segment `k` (0-based) is the first
to return an error. -/
def firstFailureAt (o : Nat → Outcome) (n k : Nat) : Prop :=
  k < n ∧ (o k).err ≠ none ∧ ∀ j, j < k → (o j).err = none

instance (o : Nat → Outcome) (n : Nat) : Decidable (allSucceed o n) := by
  unfold allSucceed; infer_instance

instance (o : Nat → Outcome) (n k : Nat) : Decidable (firstFailureAt o n k) := by
  unfold firstFailureAt; infer_instance

/-- The Globe configuration check passes: `app_id`, `app_secret` and
`passphrase` are all set to a non-empty value. -/
def globeConfigured (msg : Msg) : Prop :=
  msg.Channel.StringConfigForKey globe.configAppID "" ≠ ""
    ∧ msg.Channel.StringConfigForKey globe.configAppSecret "" ≠ ""
    ∧ msg.Channel.StringConfigForKey globe.configPassphrase "" ≠ ""

/-- The High Connection and Start configuration check passes: `username` and
`password` are both set to a non-empty value. -/
def credentialsSet (msg : Msg) : Prop :=
  msg.Channel.StringConfigForKey ConfigUsername "" ≠ ""
    ∧ msg.Channel.StringConfigForKey ConfigPassword "" ≠ ""

instance (msg : Msg) : Decidable (globeConfigured msg) := by
  unfold globeConfigured; infer_instance

instance (msg : Msg) : Decidable (credentialsSet msg) := by
  unfold credentialsSet; infer_instance

/-- The request Globe `SendMsg` builds for a part, with the credentials read
from the channel configuration. -/
def globeRequestFor (X : globe.Codec) (msg : Msg) (part : String) : Request :=
  globe.partRequest X msg (msg.Channel.StringConfigForKey globe.configAppID "")
    (msg.Channel.StringConfigForKey globe.configAppSecret "")
    (msg.Channel.StringConfigForKey globe.configPassphrase "") part

/-- The `url.Values` High Connection `SendMsg` builds for a part. -/
def hxFormFor (domain : String) (msg : Msg) (part : String) : List (String × List String) :=
  highconnection.partForm msg (msg.Channel.StringConfigForKey ConfigUsername "")
    (msg.Channel.StringConfigForKey ConfigPassword "")
    ("https://" ++ msg.Channel.CallbackDomain domain ++ "/c/hx/" ++ msg.Channel.UUID ++ "/status")
    ("https://" ++ msg.Channel.CallbackDomain domain ++ "/c/hx/" ++ msg.Channel.UUID ++ "/receive")
    part

/-- The request High Connection `SendMsg` builds for a part. -/
def hxRequestFor (X : highconnection.Codec) (domain : String) (msg : Msg) (part : String) :
    Request :=
  highconnection.partRequest X msg (msg.Channel.StringConfigForKey ConfigUsername "")
    (msg.Channel.StringConfigForKey ConfigPassword "")
    ("https://" ++ msg.Channel.CallbackDomain domain ++ "/c/hx/" ++ msg.Channel.UUID ++ "/status")
    ("https://" ++ msg.Channel.CallbackDomain domain ++ "/c/hx/" ++ msg.Channel.UUID ++ "/receive")
    part

/-- The request Start `SendMsg` builds for a part. -/
def startRequestFor (msg : Msg) (part : String) : Request :=
  startRequest msg (msg.Channel.StringConfigForKey ConfigUsername "")
    (msg.Channel.StringConfigForKey ConfigPassword "") part

/-- The result of a `SendMsg` is a status, the transport calls made are
exactly `reqs` in this order, there are `m` of them, and the status carries
`m` log entries. -/
def attemptsExactly (result : Except String MsgStatus × Transport) (reqs : List Request)
    (m : Nat) : Prop :=
  ∃ st, result.1 = Except.ok st ∧ result.2.sent = reqs ∧ result.2.sent.length = m
    ∧ st.Logs.length = m

/-- The result of a `SendMsg` is a status whose value is `v`. -/
def returnsStatus (result : Except String MsgStatus × Transport) (v : MsgStatusValue) : Prop :=
  ∃ st, result.1 = Except.ok st ∧ st.Status = v

/-- The result of a `SendMsg` is a status whose external id is `id`. -/
def returnsExternalID (result : Except String MsgStatus × Transport) (id : Option String) :
    Prop :=
  ∃ st, result.1 = Except.ok st ∧ st.ExternalID = id

/-- The configuration value of `key` is absent or empty. -/
def configMissing (msg : Msg) (key : String) : Prop :=
  msg.Channel.Config.lookup key = none ∨ msg.Channel.Config.lookup key = some ""

instance (msg : Msg) (key : String) : Decidable (configMissing msg key) := by
  unfold configMissing; infer_instance

/-- The text `err` names `key`: the characters of `key` occur in it, in a row. -/
def names (err key : String) : Prop :=
  key.data <:+: err.data

instance (err key : String) : Decidable (names err key) := by
  unfold names; infer_instance

/-- The response of some segment before segment `k` parses as a `mtResponse`. -/
def someParsed (X : start.Codec) (o : Nat → Outcome) (k : Nat) : Prop :=
  ∃ j, j < k ∧ ∃ r, X.xmlUnmarshal (o j).rr.Body = Except.ok r

/-- An inbound Globe entry that `receiveMessage` rejects: its `dateTime` does
not parse, or its `senderAddress` does not start with `tel:`, or the phone
normalizer rejects what follows the first four characters for the channel's
country. -/
def invalidEntry (D : Deps) (X : globe.Codec) (c : Channel) (e : globe.InboundSMSMessage) :
    Prop :=
  (∃ err, X.ParseTime e.DateTime = Except.error err)
    ∨ HasPrefix e.SenderAddress "tel:" = false
    ∨ (∃ err, D.StrictTelForCountry (String.mk (e.SenderAddress.data.drop 4)) c.Country
        = Except.error err)

/-! ## Concrete collaborators for worked examples

Stand-ins for the collaborators, used only to run the handlers on concrete
inputs. -/

namespace demo

/-- Cut a character list into pieces of at most `max` characters. -/
def chunk (max : Nat) : Nat → List Char → List String
  | 0, _ => []
  | _, [] => []
  | fuel + 1, c :: cs =>
    String.mk ((c :: cs).take (max.max 1)) :: chunk max fuel ((c :: cs).drop (max.max 1))

/-- A text within the limit is one segment; a longer one is cut every `max`
characters. -/
def splitMsg (text : String) (max : Nat) : List String :=
  if text.data.length ≤ max then [text] else chunk max text.data.length text.data

/-- Accepts an optional plus sign followed by 7 to 15 digits. -/
def strictTel (raw : String) (_country : String) : Except String URN :=
  let ds := if HasPrefix raw "+" then raw.data.drop 1 else raw.data
  if ds.all Char.isDigit ∧ 7 ≤ ds.length ∧ ds.length ≤ 15 then
    Except.ok { Scheme := "tel", Path := String.mk (Char.ofNat 43 :: ds) }
  else Except.error "not a possible number"

def deps : Deps :=
  { GetTextAndAttachments := fun m => m.Text,
    SplitMsg := splitMsg,
    StrictTelForCountry := strictTel }

def channel : Channel :=
  { UUID := "8eb23e93-5ecb-45ba-b726-3b064e0c56ab", Address := "2020", Country := "PH",
    Config := [("app_id", "12345"), ("app_secret", "mysecret"), ("passphrase", "opensesame"),
               ("username", "Username"), ("password", "Password")] }

/-- A channel with an empty configuration map. -/
def bareChannel : Channel :=
  { UUID := "8eb23e93-5ecb-45ba-b726-3b064e0c56ab", Address := "2020", Country := "PH",
    Config := [] }

/-- A short message: one segment for every handler. -/
def msg : Msg :=
  { ID := 10, Channel := channel, URN := { Scheme := "tel", Path := "+250788383383" },
    Text := "Simple Message", Attachments := [] }

/-- A message of 300 characters: two segments against the Globe limit of 160. -/
def longMsg : Msg :=
  { ID := 11, Channel := channel, URN := { Scheme := "tel", Path := "+250788383383" },
    Text := String.mk (List.replicate 300 'a'), Attachments := [] }

/-- A message of 1700 characters: two segments for High Connection and Start. -/
def veryLongMsg : Msg :=
  { ID := 12, Channel := channel, URN := { Scheme := "tel", Path := "+250788383383" },
    Text := String.mk (List.replicate 1700 'a'), Attachments := [] }

/-- The short message on a channel with no configuration. -/
def bareMsg : Msg :=
  { ID := 13, Channel := bareChannel, URN := { Scheme := "tel", Path := "+250788383383" },
    Text := "Simple Message", Attachments := [] }

/-- Reads the characters up to the next `<`. -/
def untilTag : List Char → List Char × List Char
  | [] => ([], [])
  | c :: cs =>
    if c = '<' then ([], c :: cs)
    else ((untilTag cs).1.cons c, (untilTag cs).2)

/-- Parses exactly the documents `<status><id>I</id><state>S</state></status>`;
any other body, the empty one included, is an error. -/
def xmlUnmarshal (body : String) : Except String start.mtResponse :=
  let open1 := "<status><id>".data
  let mid := "</id><state>".data
  let close1 := "</state></status>".data
  if open1.isPrefixOf body.data then
    let r1 := untilTag (body.data.drop open1.length)
    if mid.isPrefixOf r1.2 then
      let r2 := untilTag (r1.2.drop mid.length)
      if r2.2 = close1 then Except.ok { ID := String.mk r1.1, State := String.mk r2.1 }
      else Except.error "unexpected document"
    else Except.error "unexpected document"
  else Except.error "unexpected document"

/-- Recognises the one date of the documented example. -/
def parseTime (s : String) : Except String Int :=
  if s = "Fri Nov 22 2013 12:12:13 GMT+0000 (UTC)" then Except.ok 1385122333
  else Except.error "parsing time: cannot parse"

/-- The fields of the payload in order, separated by a line feed. -/
def jsonEncode (p : globe.mtPayload) : String :=
  String.intercalate "\n" [p.Address, p.Message, p.Passphrase, p.AppID, p.AppSecret]

/-- The base, a question mark and the `key=value` pairs joined by `&`. -/
def urlWithQuery (base : String) (form : List (String × List String)) : String :=
  base ++ "?" ++ String.intercalate "&"
    (form.map (fun kv => kv.1 ++ "=" ++ String.intercalate "," kv.2))

def globeCodec (decoded : Except String globe.moPayload) : globe.Codec :=
  { DecodeAndValidateJSON := fun _ => decoded, ParseTime := parseTime, jsonEncode := jsonEncode }

def hxCodec (decoded : Except String highconnection.statusForm) : highconnection.Codec :=
  { DecodeAndValidateForm := fun _ => decoded, urlWithQuery := urlWithQuery }

def startCodec (decoded : Except String start.moPayload) : start.Codec :=
  { DecodeAndValidateXML := fun _ => decoded, xmlUnmarshal := xmlUnmarshal }

/-- A successful exchange with the given response body. -/
def okWith (body : String) : Outcome :=
  { rr := { StatusCode := 200, Body := body }, err := none }

/-- A failed exchange. -/
def failed : Outcome :=
  { rr := { StatusCode := 0, Body := "" }, err := some "connection refused" }

/-- Every call succeeds with the given body. -/
def allOk (body : String) : Nat → Outcome :=
  fun _ => okWith body

/-- The call for segment 0 succeeds with the given body, every later call fails. -/
def failAfterFirst (body : String) : Nat → Outcome :=
  fun i => if i = 0 then okWith body else failed

/-- Every call fails. -/
def allFail : Nat → Outcome :=
  fun _ => failed

def emptyRequest : InboundRequest :=
  { Body := "", Query := "" }

/-- The Globe codec for sending: no inbound payload is involved. -/
def gl : globe.Codec := globeCodec (Except.error "no payload")

/-- The High Connection codec for sending. -/
def hx : highconnection.Codec := hxCodec (Except.error "no form")

/-- The Start codec for sending. -/
def st : start.Codec := startCodec (Except.error "no payload")

/-- The body of an accepted Start submission. -/
def accepted : String :=
  "<status><id>380502535130309161501</id><state>Accepted</state></status>"

/-- The entry of the documented Globe example. -/
def goodEntry : globe.InboundSMSMessage :=
  { DateTime := "Fri Nov 22 2013 12:12:13 GMT+0000 (UTC)",
    DestinationAddress := "tel:21581234", MessageID := "", Message := "Hello",
    SenderAddress := "tel:+639171234567" }

/-- The same entry with a sender address that lacks the `tel:` scheme. -/
def badEntry : globe.InboundSMSMessage :=
  { DateTime := "Fri Nov 22 2013 12:12:13 GMT+0000 (UTC)",
    DestinationAddress := "tel:21581234", MessageID := "", Message := "Hello again",
    SenderAddress := "+639171234567" }

/-- The documented Start document with an empty `body` element. -/
def emptyBodyPayload : start.moPayload :=
  { Service := { Timestamp := "1493792274", RequestID := "40599627" },
    From := "380975831111", To := "4224", Body := { Text := "" } }

end demo

/-! ## Lemmas on the segment loops -/

theorem attempted_le (parts : List String) : ∀ o : Nat → Outcome, attempted o parts ≤ parts.length := by
  induction parts with
  | nil => intro o; simp [attempted]
  | cons p rest ih =>
    intro o
    simp only [attempted, List.length_cons]
    split
    · omega
    · have := ih (fun i => o (i + 1)); omega

theorem attempted_all_ok (parts : List String) :
    ∀ o : Nat → Outcome, (∀ j, j < parts.length → (o j).err = none) →
      attempted o parts = parts.length := by
  induction parts with
  | nil => intro o _; simp [attempted]
  | cons p rest ih =>
    intro o h
    have h0 : (o 0).err = none := h 0 (by simp)
    have hr := ih (fun i => o (i + 1)) (fun j hj => h (j + 1) (by simpa using hj))
    simp [attempted, h0, hr]

theorem attempted_first_failure (parts : List String) :
    ∀ (o : Nat → Outcome) (k : Nat), k < parts.length → (o k).err ≠ none →
      (∀ j, j < k → (o j).err = none) → attempted o parts = k + 1 := by
  induction parts with
  | nil => intro o k hk; simp at hk
  | cons p rest ih =>
    intro o k hk hfail hok
    cases k with
    | zero =>
      have : (o 0).err.isSome = true := by
        cases h : (o 0).err with
        | none => exact absurd h hfail
        | some e => simp
      simp [attempted, this]
    | succ k =>
      have h0 : (o 0).err = none := hok 0 (by omega)
      have hr := ih (fun i => o (i + 1)) k (by simpa using hk) hfail
        (fun j hj => hok (j + 1) (by omega))
      simp [attempted, h0, hr]

theorem wireLoop_sent (mk : String → Request) (msg : Msg) (parts : List String) :
    ∀ (s : MsgStatus) (t : Transport),
      (wireLoop mk msg parts s t).2.sent
        = t.sent ++ (parts.take (attempted t.pending parts)).map mk := by
  induction parts with
  | nil => intro s t; simp [wireLoop, attempted]
  | cons p rest ih =>
    intro s t
    cases h : (t.pending 0).err with
    | some e => simp [wireLoop, attempted, MakeHTTPRequest, h]
    | none =>
      simp only [wireLoop, attempted, MakeHTTPRequest, h]
      rw [ih]
      simp

theorem wireLoop_logs (mk : String → Request) (msg : Msg) (parts : List String) :
    ∀ (s : MsgStatus) (t : Transport),
      (wireLoop mk msg parts s t).1.Logs.length
        = s.Logs.length + attempted t.pending parts := by
  induction parts with
  | nil => intro s t; simp [wireLoop, attempted]
  | cons p rest ih =>
    intro s t
    cases h : (t.pending 0).err with
    | some e => simp [wireLoop, attempted, MakeHTTPRequest, h, MsgStatus.AddLog]
    | none =>
      simp only [wireLoop, attempted, MakeHTTPRequest, h]
      rw [ih]
      simp [MsgStatus.AddLog, MsgStatus.SetStatus]
      omega

theorem wireLoop_keeps_wired (mk : String → Request) (msg : Msg) (parts : List String) :
    ∀ (s : MsgStatus) (t : Transport), s.Status = MsgStatusValue.MsgWired →
      (wireLoop mk msg parts s t).1.Status = MsgStatusValue.MsgWired := by
  induction parts with
  | nil => intro s t hs; simpa [wireLoop] using hs
  | cons p rest ih =>
    intro s t hs
    cases h : (t.pending 0).err with
    | some e => simpa [wireLoop, MakeHTTPRequest, h, MsgStatus.AddLog] using hs
    | none =>
      simp only [wireLoop, MakeHTTPRequest, h]
      exact ih _ _ (by simp [MsgStatus.AddLog, MsgStatus.SetStatus])

theorem wireLoop_status_first_ok (mk : String → Request) (msg : Msg) (p : String)
    (rest : List String) (s : MsgStatus) (t : Transport) (h : (t.pending 0).err = none) :
    (wireLoop mk msg (p :: rest) s t).1.Status = MsgStatusValue.MsgWired := by
  simp only [wireLoop, MakeHTTPRequest, h]
  exact wireLoop_keeps_wired mk msg rest _ _ (by simp [MsgStatus.AddLog, MsgStatus.SetStatus])

theorem wireLoop_status_first_failed (mk : String → Request) (msg : Msg) (p : String)
    (rest : List String) (s : MsgStatus) (t : Transport) (h : (t.pending 0).err ≠ none) :
    (wireLoop mk msg (p :: rest) s t).1.Status = s.Status := by
  cases h1 : (t.pending 0).err with
  | none => exact absurd h1 h
  | some e => simp [wireLoop, MakeHTTPRequest, h1, MsgStatus.AddLog]

theorem wireLoop_externalID (mk : String → Request) (msg : Msg) (parts : List String) :
    ∀ (s : MsgStatus) (t : Transport),
      (wireLoop mk msg parts s t).1.ExternalID = s.ExternalID := by
  induction parts with
  | nil => intro s t; simp [wireLoop]
  | cons p rest ih =>
    intro s t
    cases h : (t.pending 0).err with
    | some e => simp [wireLoop, MakeHTTPRequest, h, MsgStatus.AddLog]
    | none =>
      simp only [wireLoop, MakeHTTPRequest, h]
      rw [ih]
      simp [MsgStatus.AddLog, MsgStatus.SetStatus]

theorem globe_sendParts_eq (X : globe.Codec) (msg : Msg) (appID appSecret passphrase : String)
    (parts : List String) :
    ∀ (s : MsgStatus) (t : Transport),
      globe.sendParts X msg appID appSecret passphrase parts s t
        = wireLoop (globe.partRequest X msg appID appSecret passphrase) msg parts s t := by
  induction parts with
  | nil => intro s t; simp [globe.sendParts, wireLoop]
  | cons p rest ih =>
    intro s t
    cases h : (t.pending 0).err with
    | some e => simp [globe.sendParts, wireLoop, MakeHTTPRequest, h]
    | none => simp [globe.sendParts, wireLoop, MakeHTTPRequest, h, ih]

theorem highconnection_sendParts_eq (X : highconnection.Codec) (msg : Msg)
    (username password statusURL receiveURL : String) (parts : List String) :
    ∀ (s : MsgStatus) (t : Transport),
      highconnection.sendParts X msg username password statusURL receiveURL parts s t
        = wireLoop (highconnection.partRequest X msg username password statusURL receiveURL)
            msg parts s t := by
  induction parts with
  | nil => intro s t; simp [highconnection.sendParts, wireLoop]
  | cons p rest ih =>
    intro s t
    cases h : (t.pending 0).err with
    | some e => simp [highconnection.sendParts, wireLoop, MakeHTTPRequest, h]
    | none => simp [highconnection.sendParts, wireLoop, MakeHTTPRequest, h, ih]

theorem start_sendParts_eq (X : start.Codec) (msg : Msg) (username password : String)
    (parts : List String) :
    ∀ (i : Nat) (s : MsgStatus) (t : Transport),
      start.sendParts X msg username password i parts s t
        = (Except.ok (startLoop X msg username password i parts s t).1,
            (startLoop X msg username password i parts s t).2) := by
  induction parts with
  | nil => intro i s t; simp [start.sendParts, startLoop]
  | cons p rest ih =>
    intro i s t
    cases h : (t.pending 0).err with
    | some e =>
      simp [start.sendParts, startLoop, start.xmlEncode, startRequest, MakeHTTPRequest, h]
    | none =>
      cases hu : X.xmlUnmarshal (t.pending 0).rr.Body with
      | ok r =>
        simp [start.sendParts, startLoop, start.xmlEncode, startRequest, MakeHTTPRequest, h,
          hu, ih]
      | error e =>
        simp [start.sendParts, startLoop, start.xmlEncode, startRequest, MakeHTTPRequest, h,
          hu, ih]

theorem startLoop_sent (X : start.Codec) (msg : Msg) (username password : String)
    (parts : List String) :
    ∀ (i : Nat) (s : MsgStatus) (t : Transport),
      (startLoop X msg username password i parts s t).2.sent
        = t.sent ++ (parts.take (attempted t.pending parts)).map
            (startRequest msg username password) := by
  induction parts with
  | nil => intro i s t; simp [startLoop, attempted]
  | cons p rest ih =>
    intro i s t
    cases h : (t.pending 0).err with
    | some e => simp [startLoop, attempted, MakeHTTPRequest, h]
    | none =>
      cases hu : X.xmlUnmarshal (t.pending 0).rr.Body with
      | ok r =>
        simp only [startLoop, attempted, MakeHTTPRequest, h, hu]
        rw [ih]
        simp
      | error e =>
        simp only [startLoop, attempted, MakeHTTPRequest, h, hu]
        rw [ih]
        simp

theorem startLoop_logs (X : start.Codec) (msg : Msg) (username password : String)
    (parts : List String) :
    ∀ (i : Nat) (s : MsgStatus) (t : Transport),
      (startLoop X msg username password i parts s t).1.Logs.length
        = s.Logs.length + attempted t.pending parts := by
  induction parts with
  | nil => intro i s t; simp [startLoop, attempted]
  | cons p rest ih =>
    intro i s t
    cases h : (t.pending 0).err with
    | some e => simp [startLoop, attempted, MakeHTTPRequest, h, MsgStatus.AddLog]
    | none =>
      cases hu : X.xmlUnmarshal (t.pending 0).rr.Body with
      | ok r =>
        simp only [startLoop, attempted, MakeHTTPRequest, h, hu]
        rw [ih]
        split <;> simp [MsgStatus.AddLog, MsgStatus.SetStatus, MsgStatus.SetExternalID] <;> omega
      | error e =>
        simp only [startLoop, attempted, MakeHTTPRequest, h, hu]
        rw [ih]
        simp [MsgStatus.AddLog]
        omega

theorem startLoop_status (X : start.Codec) (msg : Msg) (username password : String)
    (parts : List String) :
    ∀ (i : Nat) (s : MsgStatus) (t : Transport),
      (startLoop X msg username password i parts s t).1.Status
        = if parsedBefore X t.pending parts = true then MsgStatusValue.MsgWired
          else s.Status := by
  induction parts with
  | nil => intro i s t; simp [startLoop, parsedBefore]
  | cons p rest ih =>
    intro i s t
    cases h : (t.pending 0).err with
    | some e => simp [startLoop, parsedBefore, MakeHTTPRequest, h, MsgStatus.AddLog]
    | none =>
      cases hu : X.xmlUnmarshal (t.pending 0).rr.Body with
      | ok r =>
        simp only [startLoop, parsedBefore, MakeHTTPRequest, h, hu, Option.isSome_none]
        rw [ih]
        by_cases hi : i = 0 <;>
          simp [hi, MsgStatus.AddLog, MsgStatus.SetStatus, MsgStatus.SetExternalID]
      | error e =>
        simp only [startLoop, parsedBefore, MakeHTTPRequest, h, hu]
        rw [ih]
        simp [MsgStatus.AddLog]

theorem startLoop_externalID_later (X : start.Codec) (msg : Msg) (username password : String)
    (parts : List String) :
    ∀ (i : Nat) (s : MsgStatus) (t : Transport),
      (startLoop X msg username password (i + 1) parts s t).1.ExternalID = s.ExternalID := by
  induction parts with
  | nil => intro i s t; simp [startLoop]
  | cons p rest ih =>
    intro i s t
    cases h : (t.pending 0).err with
    | some e => simp [startLoop, MakeHTTPRequest, h, MsgStatus.AddLog]
    | none =>
      cases hu : X.xmlUnmarshal (t.pending 0).rr.Body with
      | ok r =>
        simp only [startLoop, MakeHTTPRequest, h, hu]
        rw [ih]
        simp [MsgStatus.AddLog, MsgStatus.SetStatus]
      | error e =>
        simp only [startLoop, MakeHTTPRequest, h, hu]
        rw [ih]
        simp [MsgStatus.AddLog]

theorem startLoop_externalID_first (X : start.Codec) (msg : Msg) (username password : String)
    (p : String) (rest : List String) (s : MsgStatus) (t : Transport)
    (hs : s.ExternalID = none) :
    (startLoop X msg username password 0 (p :: rest) s t).1.ExternalID
      = firstID X (t.pending 0) := by
  cases h : (t.pending 0).err with
  | some e => simp [startLoop, firstID, MakeHTTPRequest, h, MsgStatus.AddLog, hs]
  | none =>
    cases hu : X.xmlUnmarshal (t.pending 0).rr.Body with
    | ok r =>
      simp only [startLoop, firstID, MakeHTTPRequest, h, hu]
      rw [startLoop_externalID_later]
      simp [MsgStatus.AddLog, MsgStatus.SetStatus, MsgStatus.SetExternalID]
    | error e =>
      simp only [startLoop, firstID, MakeHTTPRequest, h, hu]
      rw [startLoop_externalID_later]
      simp [MsgStatus.AddLog, hs]

theorem parsedBefore_iff (X : start.Codec) (parts : List String) :
    ∀ o : Nat → Outcome, parsedBefore X o parts = true ↔
      ∃ j, j < parts.length ∧ (∀ i, i ≤ j → (o i).err = none)
        ∧ ∃ r, X.xmlUnmarshal (o j).rr.Body = Except.ok r := by
  induction parts with
  | nil => intro o; simp [parsedBefore]
  | cons p rest ih =>
    intro o
    cases h : (o 0).err with
    | some e =>
      simp only [parsedBefore, h, Option.isSome_some, if_true]
      constructor
      · intro hf; exact absurd hf (by simp)
      · rintro ⟨j, _, hall, _⟩
        have := hall 0 (Nat.zero_le _)
        rw [h] at this
        exact absurd this (by simp)
    | none =>
      cases hu : X.xmlUnmarshal (o 0).rr.Body with
      | ok r =>
        simp only [parsedBefore, h, hu, Option.isSome_none]
        constructor
        · intro _
          refine ⟨0, by simp, ?_, r, hu⟩
          intro i hi
          have : i = 0 := by omega
          rw [this]; exact h
        · intro _; simp
      | error e =>
        simp only [parsedBefore, h, hu, Option.isSome_none]
        rw [show (if false = true then false else parsedBefore X (fun i => o (i + 1)) rest)
          = parsedBefore X (fun i => o (i + 1)) rest from by simp]
        rw [ih]
        constructor
        · rintro ⟨j, hj, hall, r, hr⟩
          refine ⟨j + 1, by simpa using hj, ?_, r, hr⟩
          intro i hi
          cases i with
          | zero => exact h
          | succ i => exact hall i (by omega)
        · rintro ⟨j, hj, hall, r, hr⟩
          cases j with
          | zero => rw [hu] at hr; exact absurd hr (by simp)
          | succ j =>
            refine ⟨j, by simpa using hj, ?_, r, hr⟩
            intro i hi
            exact hall (i + 1) (by omega)

/-! ## `SendMsg` once the configuration check has passed -/

theorem globe_SendMsg_eq (D : Deps) (X : globe.Codec) (msg : Msg) (t : Transport)
    (h : globeConfigured msg) :
    globe.SendMsg D X msg t
      = (Except.ok (wireLoop (globeRequestFor X msg) msg (segments D msg globe.maxMsgLength)
            (NewMsgStatusForID msg.Channel msg.ID MsgStatusValue.MsgErrored) t).1,
          (wireLoop (globeRequestFor X msg) msg (segments D msg globe.maxMsgLength)
            (NewMsgStatusForID msg.Channel msg.ID MsgStatusValue.MsgErrored) t).2) := by
  obtain ⟨h1, h2, h3⟩ := h
  simp only [globe.SendMsg, if_neg h1, if_neg h2, if_neg h3, globe_sendParts_eq]
  rfl

theorem highconnection_SendMsg_eq (D : Deps) (X : highconnection.Codec) (domain : String)
    (msg : Msg) (t : Transport) (h : credentialsSet msg) :
    highconnection.SendMsg D X domain msg t
      = (Except.ok (wireLoop (hxRequestFor X domain msg) msg
            (segments D msg highconnection.maxMsgLength)
            (NewMsgStatusForID msg.Channel msg.ID MsgStatusValue.MsgErrored) t).1,
          (wireLoop (hxRequestFor X domain msg) msg
            (segments D msg highconnection.maxMsgLength)
            (NewMsgStatusForID msg.Channel msg.ID MsgStatusValue.MsgErrored) t).2) := by
  obtain ⟨h1, h2⟩ := h
  simp only [highconnection.SendMsg, if_neg h1, if_neg h2, highconnection_sendParts_eq]
  rfl

theorem start_SendMsg_eq (D : Deps) (X : start.Codec) (msg : Msg) (t : Transport)
    (h : credentialsSet msg) :
    start.SendMsg D X msg t
      = (Except.ok (startLoop X msg (msg.Channel.StringConfigForKey ConfigUsername "")
            (msg.Channel.StringConfigForKey ConfigPassword "") 0
            (segments D msg start.maxMsgLength)
            (NewMsgStatusForID msg.Channel msg.ID MsgStatusValue.MsgErrored) t).1,
          (startLoop X msg (msg.Channel.StringConfigForKey ConfigUsername "")
            (msg.Channel.StringConfigForKey ConfigPassword "") 0
            (segments D msg start.maxMsgLength)
            (NewMsgStatusForID msg.Channel msg.ID MsgStatusValue.MsgErrored) t).2) := by
  obtain ⟨h1, h2⟩ := h
  simp only [start.SendMsg, if_neg h1, if_neg h2, start_sendParts_eq]
  rfl

theorem take_map_length (mk : String → Request) (parts : List String) (m : Nat)
    (hm : m ≤ parts.length) : ((parts.take m).map mk).length = m := by
  simp [List.length_take, hm]

theorem wireLoop_attempts (mk : String → Request) (msg : Msg) (parts : List String)
    (o : Nat → Outcome) (m : Nat) (hm : attempted o parts = m) :
    attemptsExactly
      (Except.ok (wireLoop mk msg parts
          (NewMsgStatusForID msg.Channel msg.ID MsgStatusValue.MsgErrored) (Transport.fresh o)).1,
        (wireLoop mk msg parts
          (NewMsgStatusForID msg.Channel msg.ID MsgStatusValue.MsgErrored) (Transport.fresh o)).2)
      ((parts.take m).map mk) m := by
  have hle : m ≤ parts.length := hm ▸ attempted_le parts o
  refine ⟨_, rfl, ?_, ?_, ?_⟩
  · simp [wireLoop_sent, Transport.fresh, hm]
  · simp only [wireLoop_sent, Transport.fresh, hm, List.nil_append]
    exact take_map_length mk parts m hle
  · simp [wireLoop_logs, Transport.fresh, hm, NewMsgStatusForID]

theorem startLoop_attempts (X : start.Codec) (msg : Msg) (username password : String)
    (parts : List String) (o : Nat → Outcome) (m : Nat) (hm : attempted o parts = m) :
    attemptsExactly
      (Except.ok (startLoop X msg username password 0 parts
          (NewMsgStatusForID msg.Channel msg.ID MsgStatusValue.MsgErrored) (Transport.fresh o)).1,
        (startLoop X msg username password 0 parts
          (NewMsgStatusForID msg.Channel msg.ID MsgStatusValue.MsgErrored) (Transport.fresh o)).2)
      ((parts.take m).map (startRequest msg username password)) m := by
  have hle : m ≤ parts.length := hm ▸ attempted_le parts o
  refine ⟨_, rfl, ?_, ?_, ?_⟩
  · simp [startLoop_sent, Transport.fresh, hm]
  · simp only [startLoop_sent, Transport.fresh, hm, List.nil_append]
    exact take_map_length _ parts m hle
  · simp [startLoop_logs, Transport.fresh, hm, NewMsgStatusForID]

theorem attempted_of_firstFailureAt (parts : List String) (o : Nat → Outcome) (k : Nat)
    (h : firstFailureAt o parts.length k) : attempted o parts = k + 1 :=
  attempted_first_failure parts o k h.1 h.2.1 h.2.2

theorem returnsStatus_unique (result : Except String MsgStatus × Transport)
    (v w : MsgStatusValue) (hv : returnsStatus result v) (hw : returnsStatus result w) :
    v = w := by
  obtain ⟨st, h1, h2⟩ := hv
  obtain ⟨st', h1', h2'⟩ := hw
  rw [h1] at h1'
  cases h1'
  rw [← h2, ← h2']

theorem returnsExternalID_unique (result : Except String MsgStatus × Transport)
    (a b : Option String) (ha : returnsExternalID result a) (hb : returnsExternalID result b) :
    a = b := by
  obtain ⟨st, h1, h2⟩ := ha
  obtain ⟨st', h1', h2'⟩ := hb
  rw [h1] at h1'
  cases h1'
  rw [← h2, ← h2']

theorem wireLoop_status_of_firstFailure (mk : String → Request) (msg : Msg)
    (parts : List String) (s : MsgStatus) (o : Nat → Outcome) (k : Nat)
    (h : firstFailureAt o parts.length k) :
    (wireLoop mk msg parts s (Transport.fresh o)).1.Status
      = if k = 0 then s.Status else MsgStatusValue.MsgWired := by
  obtain ⟨hk, hfail, hok⟩ := h
  cases parts with
  | nil => simp at hk
  | cons p rest =>
    by_cases hz : k = 0
    · subst hz
      simp only [if_true]
      exact wireLoop_status_first_failed mk msg p rest s _ hfail
    · simp only [if_neg hz]
      exact wireLoop_status_first_ok mk msg p rest s _ (hok 0 (by omega))

theorem wireLoop_status_of_allSucceed (mk : String → Request) (msg : Msg)
    (parts : List String) (s : MsgStatus) (o : Nat → Outcome) (hne : parts ≠ [])
    (h : allSucceed o parts.length) :
    (wireLoop mk msg parts s (Transport.fresh o)).1.Status = MsgStatusValue.MsgWired := by
  cases parts with
  | nil => exact absurd rfl hne
  | cons p rest => exact wireLoop_status_first_ok mk msg p rest s _ (h 0 (by simp))

theorem parsedBefore_of_firstFailure (X : start.Codec) (parts : List String)
    (o : Nat → Outcome) (k : Nat) (h : firstFailureAt o parts.length k) :
    parsedBefore X o parts = true ↔ someParsed X o k := by
  obtain ⟨hk, hfail, hok⟩ := h
  rw [parsedBefore_iff]
  constructor
  · rintro ⟨j, _, hall, r, hr⟩
    refine ⟨j, ?_, r, hr⟩
    by_contra hjk
    exact hfail (hall k (by omega))
  · rintro ⟨j, hj, r, hr⟩
    exact ⟨j, by omega, fun i hi => hok i (by omega), r, hr⟩

theorem parsedBefore_of_allSucceed (X : start.Codec) (parts : List String)
    (o : Nat → Outcome) (h : allSucceed o parts.length) :
    parsedBefore X o parts = true ↔ someParsed X o parts.length := by
  rw [parsedBefore_iff]
  constructor
  · rintro ⟨j, hj, _, r, hr⟩
    exact ⟨j, hj, r, hr⟩
  · rintro ⟨j, hj, r, hr⟩
    exact ⟨j, hj, fun i hi => h i (by omega), r, hr⟩

theorem startLoop_externalID (X : start.Codec) (msg : Msg) (username password : String)
    (parts : List String) (o : Nat → Outcome) :
    (startLoop X msg username password 0 parts
        (NewMsgStatusForID msg.Channel msg.ID MsgStatusValue.MsgErrored)
        (Transport.fresh o)).1.ExternalID
      = if parts = [] then none else firstID X (o 0) := by
  cases parts with
  | nil => simp [startLoop, NewMsgStatusForID]
  | cons p rest =>
    simp only [if_neg (List.cons_ne_nil p rest)]
    exact startLoop_externalID_first X msg username password p rest _ _ rfl

theorem stringConfig_empty_iff (msg : Msg) (key : String) :
    msg.Channel.StringConfigForKey key "" = "" ↔ configMissing msg key := by
  unfold Channel.StringConfigForKey configMissing
  cases h : msg.Channel.Config.lookup key with
  | none => simp
  | some v => simp

theorem names_append_right (a b key : String) (h : names a key) : names (a ++ b) key := by
  unfold names at *
  rw [String.data_append]
  exact h.trans (List.prefix_append a.data b.data).isInfix

theorem names_middle (a b key : String) : names (a ++ key ++ b) key := by
  unfold names
  rw [String.data_append, String.data_append]
  exact List.infix_append a.data key.data b.data

theorem receiveEntries_rejects (D : Deps) (X : globe.Codec) (c : Channel)
    (entries : List globe.InboundSMSMessage) :
    ∀ msgs : List IncomingMsg, (∃ e, e ∈ entries ∧ invalidEntry D X c e) →
      ∃ err, globe.receiveEntries D X c entries msgs = ReceiveResult.requestError err := by
  induction entries with
  | nil => intro msgs h; obtain ⟨e, he, _⟩ := h; simp at he
  | cons g rest ih =>
    intro msgs h
    cases ht : X.ParseTime g.DateTime with
    | error err => exact ⟨err, by simp [globe.receiveEntries, ht]⟩
    | ok date =>
      cases hp : HasPrefix g.SenderAddress "tel:" with
      | false =>
        exact ⟨"invalid 'senderAddress' parameter", by simp [globe.receiveEntries, ht, hp]⟩
      | true =>
        cases hs : D.StrictTelForCountry (String.mk (g.SenderAddress.data.drop 4)) c.Country with
        | error err => exact ⟨err, by simp [globe.receiveEntries, ht, hp, hs]⟩
        | ok urn =>
          have hrest : ∃ e, e ∈ rest ∧ invalidEntry D X c e := by
            obtain ⟨e, he, hinv⟩ := h
            rcases List.mem_cons.1 he with heq | hmem
            · subst heq
              rcases hinv with ⟨err, h1⟩ | h2 | ⟨err, h3⟩
              · rw [ht] at h1; exact absurd h1 (by simp)
              · rw [hp] at h2; exact absurd h2 (by simp)
              · rw [hs] at h3; exact absurd h3 (by simp)
            · exact ⟨e, hmem, hinv⟩
          obtain ⟨err, herr⟩ :=
            ih (msgs ++ [IncomingMsg.mk c urn g.Message g.MessageID date]) hrest
          exact ⟨err, by simp [globe.receiveEntries, ht, hp, hs, herr]⟩

theorem trimPrefix_plus (d : String) : TrimPrefix ("+" ++ d) "+" = d := by
  have h1 : HasPrefix ("+" ++ d) "+" = true := by
    simp [HasPrefix, String.data_append]
  simp [TrimPrefix, h1, String.data_append]

theorem digits_no_plus (d : String) (hd : d.data.all Char.isDigit = true) :
    HasPrefix d "+" = false := by
  unfold HasPrefix
  cases h : d.data with
  | nil => rfl
  | cons c cs =>
    rw [h] at hd
    have hc : c.isDigit = true := by
      simp only [List.all_cons, Bool.and_eq_true] at hd
      exact hd.1
    have hne : ('+' == c) = false := by
      rw [beq_eq_false_iff_ne]
      intro heq
      rw [← heq] at hc
      exact absurd hc (by decide)
    show (('+' == c) && ([] : List Char).isPrefixOf cs) = false
    rw [hne]
    rfl

theorem mem_sent_of_take (mk : String → Request) (parts : List String) (m : Nat)
    (sent : List Request) (h : sent = (parts.take m).map mk) :
    ∀ req, req ∈ sent → ∃ part, part ∈ parts ∧ req = mk part := by
  intro req hreq
  rw [h] at hreq
  obtain ⟨part, hpart, hmk⟩ := List.mem_map.1 hreq
  exact ⟨part, List.mem_of_mem_take hpart, hmk.symm⟩

/-! ## The claims -/

/-- C4. For each `SendMsg` (Globe, High Connection, Start), for a message that
passes the configuration check and splits into the segments `parts`, on a
transport whose `i`-th call has outcome `o i`: when no call among the first
`parts.length` fails, the requests sent are exactly those of all the segments,
in order, and the returned status carries `parts.length` log entries; when the
call for segment `k` is the first to fail, the requests sent are exactly those
of segments `0..k`, in order, there are `k + 1` of them and the status carries
`k + 1` log entries, so no segment is attempted after the first failure. -/
theorem sendMsg_attempts_in_order (D : Deps) (Xg : globe.Codec) (Xh : highconnection.Codec)
    (Xs : start.Codec) (domain : String) (msg : Msg) (o : Nat → Outcome) :
    (globeConfigured msg →
      (allSucceed o (segments D msg globe.maxMsgLength).length →
        attemptsExactly (globe.SendMsg D Xg msg (Transport.fresh o))
          ((segments D msg globe.maxMsgLength).map (globeRequestFor Xg msg))
          (segments D msg globe.maxMsgLength).length)
      ∧ (∀ k, firstFailureAt o (segments D msg globe.maxMsgLength).length k →
        attemptsExactly (globe.SendMsg D Xg msg (Transport.fresh o))
          (((segments D msg globe.maxMsgLength).take (k + 1)).map (globeRequestFor Xg msg))
          (k + 1)))
    ∧ (credentialsSet msg →
      (allSucceed o (segments D msg highconnection.maxMsgLength).length →
        attemptsExactly (highconnection.SendMsg D Xh domain msg (Transport.fresh o))
          ((segments D msg highconnection.maxMsgLength).map (hxRequestFor Xh domain msg))
          (segments D msg highconnection.maxMsgLength).length)
      ∧ (∀ k, firstFailureAt o (segments D msg highconnection.maxMsgLength).length k →
        attemptsExactly (highconnection.SendMsg D Xh domain msg (Transport.fresh o))
          (((segments D msg highconnection.maxMsgLength).take (k + 1)).map
            (hxRequestFor Xh domain msg))
          (k + 1)))
    ∧ (credentialsSet msg →
      (allSucceed o (segments D msg start.maxMsgLength).length →
        attemptsExactly (start.SendMsg D Xs msg (Transport.fresh o))
          ((segments D msg start.maxMsgLength).map (startRequestFor msg))
          (segments D msg start.maxMsgLength).length)
      ∧ (∀ k, firstFailureAt o (segments D msg start.maxMsgLength).length k →
        attemptsExactly (start.SendMsg D Xs msg (Transport.fresh o))
          (((segments D msg start.maxMsgLength).take (k + 1)).map (startRequestFor msg))
          (k + 1))) := by
  refine ⟨fun hc => ⟨fun hall => ?_, fun k hk => ?_⟩, fun hc => ⟨fun hall => ?_, fun k hk => ?_⟩,
    fun hc => ⟨fun hall => ?_, fun k hk => ?_⟩⟩
  · rw [globe_SendMsg_eq D Xg msg _ hc]
    have := wireLoop_attempts (globeRequestFor Xg msg) msg _ o _ (attempted_all_ok _ o hall)
    simpa using this
  · rw [globe_SendMsg_eq D Xg msg _ hc]
    exact wireLoop_attempts (globeRequestFor Xg msg) msg _ o _ (attempted_of_firstFailureAt _ o k hk)
  · rw [highconnection_SendMsg_eq D Xh domain msg _ hc]
    have := wireLoop_attempts (hxRequestFor Xh domain msg) msg _ o _
      (attempted_all_ok _ o hall)
    simpa using this
  · rw [highconnection_SendMsg_eq D Xh domain msg _ hc]
    exact wireLoop_attempts (hxRequestFor Xh domain msg) msg _ o _
      (attempted_of_firstFailureAt _ o k hk)
  · rw [start_SendMsg_eq D Xs msg _ hc]
    have := startLoop_attempts Xs msg (msg.Channel.StringConfigForKey ConfigUsername "")
      (msg.Channel.StringConfigForKey ConfigPassword "") _ o _ (attempted_all_ok _ o hall)
    rw [List.take_length] at this
    exact this
  · rw [start_SendMsg_eq D Xs msg _ hc]
    exact startLoop_attempts Xs msg (msg.Channel.StringConfigForKey ConfigUsername "")
      (msg.Channel.StringConfigForKey ConfigPassword "") _ o _
      (attempted_of_firstFailureAt _ o k hk)

/-- C1, as amended. For each `SendMsg`, for a message that passes the
configuration check, when the transport call for segment `k` is the first to
fail: if `k = 0` the returned status is Errored; if `k > 0` the returned
status is Wired for Globe and High Connection, and for Start it is Wired when
the response of some segment before `k` parsed as a `mtResponse` and Errored
when none did. -/
theorem sendMsg_status_after_failure (D : Deps) (Xg : globe.Codec)
    (Xh : highconnection.Codec) (Xs : start.Codec) (domain : String) (msg : Msg)
    (o : Nat → Outcome) :
    (globeConfigured msg →
      ∀ k, firstFailureAt o (segments D msg globe.maxMsgLength).length k →
        returnsStatus (globe.SendMsg D Xg msg (Transport.fresh o))
          (if k = 0 then MsgStatusValue.MsgErrored else MsgStatusValue.MsgWired))
    ∧ (credentialsSet msg →
      ∀ k, firstFailureAt o (segments D msg highconnection.maxMsgLength).length k →
        returnsStatus (highconnection.SendMsg D Xh domain msg (Transport.fresh o))
          (if k = 0 then MsgStatusValue.MsgErrored else MsgStatusValue.MsgWired))
    ∧ (credentialsSet msg →
      ∀ k, firstFailureAt o (segments D msg start.maxMsgLength).length k →
        (someParsed Xs o k →
          returnsStatus (start.SendMsg D Xs msg (Transport.fresh o)) MsgStatusValue.MsgWired)
        ∧ (¬ someParsed Xs o k →
          returnsStatus (start.SendMsg D Xs msg (Transport.fresh o))
            MsgStatusValue.MsgErrored)) := by
  refine ⟨fun hc k hk => ?_, fun hc k hk => ?_, fun hc k hk => ⟨fun hp => ?_, fun hp => ?_⟩⟩
  · rw [globe_SendMsg_eq D Xg msg _ hc]
    exact ⟨_, rfl, wireLoop_status_of_firstFailure _ msg _ _ o k hk⟩
  · rw [highconnection_SendMsg_eq D Xh domain msg _ hc]
    exact ⟨_, rfl, wireLoop_status_of_firstFailure _ msg _ _ o k hk⟩
  · rw [start_SendMsg_eq D Xs msg _ hc]
    refine ⟨_, rfl, ?_⟩
    rw [startLoop_status]
    have := (parsedBefore_of_firstFailure Xs _ o k hk).2 hp
    simp [Transport.fresh, this]
  · rw [start_SendMsg_eq D Xs msg _ hc]
    refine ⟨_, rfl, ?_⟩
    rw [startLoop_status]
    have : ¬ parsedBefore Xs o (segments D msg start.maxMsgLength) = true :=
      fun h => hp ((parsedBefore_of_firstFailure Xs _ o k hk).1 h)
    simp [Transport.fresh, this, NewMsgStatusForID]

/-- C5, as amended. For a message that passes the configuration check, when
the transport call of every segment succeeds: for Globe and High Connection,
with at least one segment, the returned status is Wired whatever the response
bodies are; for Start the returned status is Wired when the response body of
at least one segment parses as a `mtResponse`, and Errored when none does. -/
theorem sendMsg_status_all_succeed (D : Deps) (Xg : globe.Codec)
    (Xh : highconnection.Codec) (Xs : start.Codec) (domain : String) (msg : Msg)
    (o : Nat → Outcome) :
    (globeConfigured msg → segments D msg globe.maxMsgLength ≠ [] →
      allSucceed o (segments D msg globe.maxMsgLength).length →
        returnsStatus (globe.SendMsg D Xg msg (Transport.fresh o)) MsgStatusValue.MsgWired)
    ∧ (credentialsSet msg → segments D msg highconnection.maxMsgLength ≠ [] →
      allSucceed o (segments D msg highconnection.maxMsgLength).length →
        returnsStatus (highconnection.SendMsg D Xh domain msg (Transport.fresh o))
          MsgStatusValue.MsgWired)
    ∧ (credentialsSet msg →
      allSucceed o (segments D msg start.maxMsgLength).length →
        (someParsed Xs o (segments D msg start.maxMsgLength).length →
          returnsStatus (start.SendMsg D Xs msg (Transport.fresh o)) MsgStatusValue.MsgWired)
        ∧ (¬ someParsed Xs o (segments D msg start.maxMsgLength).length →
          returnsStatus (start.SendMsg D Xs msg (Transport.fresh o))
            MsgStatusValue.MsgErrored)) := by
  refine ⟨fun hc hne hall => ?_, fun hc hne hall => ?_,
    fun hc hall => ⟨fun hp => ?_, fun hp => ?_⟩⟩
  · rw [globe_SendMsg_eq D Xg msg _ hc]
    exact ⟨_, rfl, wireLoop_status_of_allSucceed _ msg _ _ o hne hall⟩
  · rw [highconnection_SendMsg_eq D Xh domain msg _ hc]
    exact ⟨_, rfl, wireLoop_status_of_allSucceed _ msg _ _ o hne hall⟩
  · rw [start_SendMsg_eq D Xs msg _ hc]
    refine ⟨_, rfl, ?_⟩
    rw [startLoop_status]
    have := (parsedBefore_of_allSucceed Xs _ o hall).2 hp
    simp [Transport.fresh, this]
  · rw [start_SendMsg_eq D Xs msg _ hc]
    refine ⟨_, rfl, ?_⟩
    rw [startLoop_status]
    have : ¬ parsedBefore Xs o (segments D msg start.maxMsgLength) = true :=
      fun h => hp ((parsedBefore_of_allSucceed Xs _ o hall).1 h)
    simp [Transport.fresh, this, NewMsgStatusForID]

/-- C6. For Start `SendMsg`, the external id of the returned status depends on
the outcome of the call for segment 0 alone: two runs whose outcomes agree on
segment 0 return the same external id (or the same configuration error),
whatever the outcomes of later segments are; and for a message that passes the
configuration check and has a segment, the external id is the one the response
to segment 0 gives, which is the `id` element when the call for segment 0
succeeded and its response parsed. -/
theorem start_externalID_from_first_segment (D : Deps) (X : start.Codec) (msg : Msg)
    (o o' : Nat → Outcome) :
    (o 0 = o' 0 →
      (start.SendMsg D X msg (Transport.fresh o)).1.map (fun st => st.ExternalID)
        = (start.SendMsg D X msg (Transport.fresh o')).1.map (fun st => st.ExternalID))
    ∧ (credentialsSet msg → segments D msg start.maxMsgLength ≠ [] →
        returnsExternalID (start.SendMsg D X msg (Transport.fresh o)) (firstID X (o 0))
        ∧ ∀ r, (o 0).err = none → X.xmlUnmarshal (o 0).rr.Body = Except.ok r →
            returnsExternalID (start.SendMsg D X msg (Transport.fresh o)) (some r.ID)) := by
  constructor
  · intro h0
    by_cases hc : credentialsSet msg
    · rw [start_SendMsg_eq D X msg _ hc, start_SendMsg_eq D X msg _ hc]
      show Except.ok _ = Except.ok _
      dsimp only
      rw [startLoop_externalID, startLoop_externalID, h0]
    · have hmiss : ¬ (msg.Channel.StringConfigForKey ConfigUsername "" ≠ ""
          ∧ msg.Channel.StringConfigForKey ConfigPassword "" ≠ "") := hc
      by_cases hu : msg.Channel.StringConfigForKey ConfigUsername "" = ""
      · simp [start.SendMsg, hu]
      · have hp : msg.Channel.StringConfigForKey ConfigPassword "" = "" := by
          by_contra hp
          exact hmiss ⟨hu, hp⟩
        simp [start.SendMsg, hu, hp]
  · intro hc hne
    have key : returnsExternalID (start.SendMsg D X msg (Transport.fresh o))
        (firstID X (o 0)) := by
      rw [start_SendMsg_eq D X msg _ hc]
      refine ⟨_, rfl, ?_⟩
      rw [startLoop_externalID, if_neg hne]
    refine ⟨key, fun r herr hr => ?_⟩
    have : firstID X (o 0) = some r.ID := by simp [firstID, herr, hr]
    rw [← this]
    exact key

/-- C7, as amended. For Start `SendMsg`, for a message that passes the
configuration check and splits into two or more segments: if the call for
segment 0 succeeds with a response whose `id` parses and the call of a later
segment fails, the returned status still records that id as its external id;
the later failure does not clear it. -/
theorem start_externalID_kept_after_failure (D : Deps) (X : start.Codec) (msg : Msg)
    (o : Nat → Outcome) (r : start.mtResponse) (k : Nat)
    (hc : credentialsSet msg) (hn : 2 ≤ (segments D msg start.maxMsgLength).length)
    (h0 : (o 0).err = none) (hr : X.xmlUnmarshal (o 0).rr.Body = Except.ok r)
    (_hk : 0 < k ∧ k < (segments D msg start.maxMsgLength).length)
    (_hfail : (o k).err ≠ none) :
    returnsExternalID (start.SendMsg D X msg (Transport.fresh o)) (some r.ID) := by
  have hne : segments D msg start.maxMsgLength ≠ [] := by
    intro h
    rw [h] at hn
    simp at hn
  rw [start_SendMsg_eq D X msg _ hc]
  refine ⟨_, rfl, ?_⟩
  rw [startLoop_externalID, if_neg hne]
  simp [firstID, h0, hr]

/-- C2. For the High Connection status receiver, for every request whose form
decodes with status code `c`: if `c` is 2, 11, 12, 13, 14, 15 or 16 the status
written is Failed, if `c` is 4 it is Sent, if `c` is 6 it is Delivered, and for
every other `c` the call fails with the error `unknown status` that names `c`
in decimal and writes no status. -/
theorem receiveStatus_maps_codes (X : highconnection.Codec) (channel : Channel)
    (r : InboundRequest) (form : highconnection.statusForm)
    (hdec : X.DecodeAndValidateForm r = Except.ok form) :
    (form.Status ∈ ([2, 11, 12, 13, 14, 15, 16] : List Int) →
      highconnection.receiveStatus X channel r
        = ReceiveResult.wroteStatus
            (NewMsgStatusForID channel form.RetID MsgStatusValue.MsgFailed))
    ∧ (form.Status = 4 →
      highconnection.receiveStatus X channel r
        = ReceiveResult.wroteStatus
            (NewMsgStatusForID channel form.RetID MsgStatusValue.MsgSent))
    ∧ (form.Status = 6 →
      highconnection.receiveStatus X channel r
        = ReceiveResult.wroteStatus
            (NewMsgStatusForID channel form.RetID MsgStatusValue.MsgDelivered))
    ∧ (form.Status ∉ ([2, 4, 6, 11, 12, 13, 14, 15, 16] : List Int) →
      highconnection.receiveStatus X channel r
        = ReceiveResult.requestError (highconnection.unknownStatus form.Status)
      ∧ names (highconnection.unknownStatus form.Status) (toString form.Status)) := by
  refine ⟨fun hm => ?_, fun hm => ?_, fun hm => ?_, fun hm => ⟨?_, ?_⟩⟩
  · simp only [List.mem_cons, List.mem_singleton, List.mem_nil_iff, or_false] at hm
    rcases hm with h | h | h | h | h | h | h <;>
      simp [highconnection.receiveStatus, hdec, h, highconnection.statusMapping, List.lookup]
  · simp [highconnection.receiveStatus, hdec, hm, highconnection.statusMapping, List.lookup]
  · simp [highconnection.receiveStatus, hdec, hm, highconnection.statusMapping, List.lookup]
  · simp only [List.mem_cons, List.mem_singleton, List.mem_nil_iff, or_false, not_or] at hm
    obtain ⟨h2, h4, h6, h11, h12, h13, h14, h15, h16⟩ := hm
    have e2 : (form.Status == 2) = false := beq_eq_false_iff_ne.2 h2
    have e4 : (form.Status == 4) = false := beq_eq_false_iff_ne.2 h4
    have e6 : (form.Status == 6) = false := beq_eq_false_iff_ne.2 h6
    have e11 : (form.Status == 11) = false := beq_eq_false_iff_ne.2 h11
    have e12 : (form.Status == 12) = false := beq_eq_false_iff_ne.2 h12
    have e13 : (form.Status == 13) = false := beq_eq_false_iff_ne.2 h13
    have e14 : (form.Status == 14) = false := beq_eq_false_iff_ne.2 h14
    have e15 : (form.Status == 15) = false := beq_eq_false_iff_ne.2 h15
    have e16 : (form.Status == 16) = false := beq_eq_false_iff_ne.2 h16
    simp only [highconnection.receiveStatus, hdec, highconnection.statusMapping, List.lookup,
      e2, e4, e6, e11, e12, e13, e14, e15, e16]
  · exact names_middle _ _ _

/-- C3. For every outbound message and every transport state, if a required
configuration value is absent or empty, `SendMsg` returns an error that names
the first absent key and no status (so no log entry), and the transport state
is returned untouched (no call was made), whatever the message text is. The
keys are checked in the order `app_id`, `app_secret`, `passphrase` for Globe and
`username`, `password` for High Connection and Start. -/
theorem sendMsg_missing_config (D : Deps) (Xg : globe.Codec) (Xh : highconnection.Codec)
    (Xs : start.Codec) (domain : String) (msg : Msg) (t : Transport) :
    (configMissing msg "app_id" →
      ∃ err, globe.SendMsg D Xg msg t = (Except.error err, t) ∧ names err "app_id")
    ∧ (¬ configMissing msg "app_id" → configMissing msg "app_secret" →
      ∃ err, globe.SendMsg D Xg msg t = (Except.error err, t) ∧ names err "app_secret")
    ∧ (¬ configMissing msg "app_id" → ¬ configMissing msg "app_secret" →
        configMissing msg "passphrase" →
      ∃ err, globe.SendMsg D Xg msg t = (Except.error err, t) ∧ names err "passphrase")
    ∧ (configMissing msg "username" →
      (∃ err, highconnection.SendMsg D Xh domain msg t = (Except.error err, t)
        ∧ names err "username")
      ∧ (∃ err, start.SendMsg D Xs msg t = (Except.error err, t) ∧ names err "username"))
    ∧ (¬ configMissing msg "username" → configMissing msg "password" →
      (∃ err, highconnection.SendMsg D Xh domain msg t = (Except.error err, t)
        ∧ names err "password")
      ∧ (∃ err, start.SendMsg D Xs msg t = (Except.error err, t) ∧ names err "password")) := by
  refine ⟨fun h1 => ?_, fun h1 h2 => ?_, fun h1 h2 h3 => ?_, fun h1 => ⟨?_, ?_⟩,
    fun h1 h2 => ⟨?_, ?_⟩⟩
  · have e1 := (stringConfig_empty_iff msg "app_id").2 h1
    exact ⟨"Missing 'app_id' config for GL channel",
      by simp [globe.SendMsg, globe.configAppID, e1], by decide⟩
  · have e1 := mt (stringConfig_empty_iff msg "app_id").1 h1
    have e2 := (stringConfig_empty_iff msg "app_secret").2 h2
    exact ⟨"Missing 'app_secret' config for GL channel",
      by simp [globe.SendMsg, globe.configAppID, globe.configAppSecret, e1, e2], by decide⟩
  · have e1 := mt (stringConfig_empty_iff msg "app_id").1 h1
    have e2 := mt (stringConfig_empty_iff msg "app_secret").1 h2
    have e3 := (stringConfig_empty_iff msg "passphrase").2 h3
    exact ⟨"Missing 'passphrase' config for GL channel",
      by simp [globe.SendMsg, globe.configAppID, globe.configAppSecret,
        globe.configPassphrase, e1, e2, e3], by decide⟩
  · have e1 := (stringConfig_empty_iff msg "username").2 h1
    exact ⟨"no username set for HX channel",
      by simp [highconnection.SendMsg, ConfigUsername, e1], by decide⟩
  · have e1 := (stringConfig_empty_iff msg "username").2 h1
    exact ⟨"no username set for ST channel: " ++ msg.Channel.UUID,
      by simp [start.SendMsg, ConfigUsername, e1], names_append_right _ _ _ (by decide)⟩
  · have e1 := mt (stringConfig_empty_iff msg "username").1 h1
    have e2 := (stringConfig_empty_iff msg "password").2 h2
    exact ⟨"no password set for HX channel",
      by simp [highconnection.SendMsg, ConfigUsername, ConfigPassword, e1, e2], by decide⟩
  · have e1 := mt (stringConfig_empty_iff msg "username").1 h1
    have e2 := (stringConfig_empty_iff msg "password").2 h2
    exact ⟨"no password set for ST channel: " ++ msg.Channel.UUID,
      by simp [start.SendMsg, ConfigUsername, ConfigPassword, e1, e2],
      names_append_right _ _ _ (by decide)⟩

/-- C8. For Globe `receiveMessage`, for every request whose body decodes to a
batch of entries: if any entry of the batch has a `dateTime` that does not
parse, a `senderAddress` without the `tel:` scheme, or a number the phone
normalizer rejects for the channel's country, the call ends in a request
error and hands no message to the write step, also when earlier entries of
the batch were valid. -/
theorem globe_receiveMessage_all_or_nothing (D : Deps) (X : globe.Codec) (c : Channel)
    (r : InboundRequest) (payload : globe.moPayload)
    (hdec : X.DecodeAndValidateJSON r = Except.ok payload)
    (hbad : ∃ e, e ∈ payload.InboundSMSMessage ∧ invalidEntry D X c e) :
    (∃ err, globe.receiveMessage D X c r = ReceiveResult.requestError err)
    ∧ ∀ msgs, globe.receiveMessage D X c r ≠ ReceiveResult.wroteMsgs msgs := by
  have hne : payload.InboundSMSMessage.length ≠ 0 := by
    obtain ⟨e, he, _⟩ := hbad
    intro h0
    rw [List.length_eq_zero] at h0
    rw [h0] at he
    simp at he
  obtain ⟨err, herr⟩ := receiveEntries_rejects D X c payload.InboundSMSMessage [] hbad
  have hres : globe.receiveMessage D X c r = ReceiveResult.requestError err := by
    simp [globe.receiveMessage, hdec, hne, herr]
  exact ⟨⟨err, hres⟩, fun msgs h => by rw [hres] at h; cases h⟩

/-- C9, at a failing input. Start `receiveMessage` on the documented example
with an empty `body` element (`request_id`, `from` and `to` present): the call
does not fail, it hands one inbound message with the empty text to the write
step. -/
theorem start_receiveMessage_accepts_empty_body :
    demo.emptyBodyPayload.Body.Text = ""
    ∧ start.receiveMessage demo.deps (demo.startCodec (Except.ok demo.emptyBodyPayload))
        demo.channel demo.emptyRequest
      = ReceiveResult.wroteMsgs
          [IncomingMsg.mk demo.channel (URN.mk "tel" "+380975831111") "" "" 1493792274] := by
  decide

/-- C10, as amended. For a destination URN whose path is `+` followed by the
digits `d`, and for every segment: the Globe request carries the payload whose
`address` is `d`, which has no leading `+`; the High Connection request carries
the form whose `to` value is the URN path unchanged, `+` included; the Start
request carries the document of the payload whose `to` element is the URN path
unchanged, `+` included. Every request a `SendMsg` sends is the request of one
of the segments. -/
theorem destination_number_in_requests (D : Deps) (Xg : globe.Codec)
    (Xh : highconnection.Codec) (Xs : start.Codec) (domain : String) (msg : Msg) (d : String)
    (o : Nat → Outcome) (hpath : msg.URN.Path = "+" ++ d)
    (hd : d.data.all Char.isDigit = true) :
    (∀ part, (globeRequestFor Xg msg part).Body
        = some (Xg.jsonEncode
            { Address := d, Message := part,
              Passphrase := msg.Channel.StringConfigForKey globe.configPassphrase "",
              AppID := msg.Channel.StringConfigForKey globe.configAppID "",
              AppSecret := msg.Channel.StringConfigForKey globe.configAppSecret "" }))
    ∧ HasPrefix d "+" = false
    ∧ (∀ part, (hxRequestFor Xh domain msg part).URL
          = Xh.urlWithQuery highconnection.sendURL (hxFormFor domain msg part)
        ∧ (hxFormFor domain msg part).lookup "to" = some ["+" ++ d])
    ∧ (∀ part, (startRequestFor msg part).Body
          = some (start.xmlDocument (start.partPayload msg part))
        ∧ (start.partPayload msg part).To = "+" ++ d)
    ∧ (globeConfigured msg →
        ∀ req, req ∈ (globe.SendMsg D Xg msg (Transport.fresh o)).2.sent →
          ∃ part, part ∈ segments D msg globe.maxMsgLength ∧ req = globeRequestFor Xg msg part)
    ∧ (credentialsSet msg →
        ∀ req, req ∈ (highconnection.SendMsg D Xh domain msg (Transport.fresh o)).2.sent →
          ∃ part, part ∈ segments D msg highconnection.maxMsgLength
            ∧ req = hxRequestFor Xh domain msg part)
    ∧ (credentialsSet msg →
        ∀ req, req ∈ (start.SendMsg D Xs msg (Transport.fresh o)).2.sent →
          ∃ part, part ∈ segments D msg start.maxMsgLength
            ∧ req = startRequestFor msg part) := by
  refine ⟨fun part => ?_, digits_no_plus d hd, fun part => ⟨rfl, ?_⟩, fun part => ⟨rfl, ?_⟩,
    fun hc => ?_, fun hc => ?_, fun hc => ?_⟩
  · simp [globeRequestFor, globe.partRequest, globe.partPayload, hpath, trimPrefix_plus]
  · simp [hxFormFor, highconnection.partForm, List.lookup, hpath]
  · simp [start.partPayload, hpath]
  · rw [globe_SendMsg_eq D Xg msg _ hc]
    exact mem_sent_of_take (globeRequestFor Xg msg) _
      (attempted o (segments D msg globe.maxMsgLength)) _ (by rw [wireLoop_sent]; rfl)
  · rw [highconnection_SendMsg_eq D Xh domain msg _ hc]
    exact mem_sent_of_take (hxRequestFor Xh domain msg) _
      (attempted o (segments D msg highconnection.maxMsgLength)) _
      (by rw [wireLoop_sent]; rfl)
  · rw [start_SendMsg_eq D Xs msg _ hc]
    exact mem_sent_of_take (startRequestFor msg) _
      (attempted o (segments D msg start.maxMsgLength)) _ (by rw [startLoop_sent]; rfl)

/-! ## Worked examples -/

set_option maxRecDepth 100000 in
/-- C1 fails as stated: a Globe message of two segments whose first call
succeeds and whose second call fails comes back Wired, not Errored. -/
theorem sendMsg_partial_send_counterexample :
    globeConfigured demo.longMsg
    ∧ (segments demo.deps demo.longMsg globe.maxMsgLength).length = 2
    ∧ (demo.failAfterFirst "" 0).err = none
    ∧ (demo.failAfterFirst "" 1).err ≠ none
    ∧ returnsStatus
        (globe.SendMsg demo.deps demo.gl demo.longMsg (Transport.fresh (demo.failAfterFirst "")))
        MsgStatusValue.MsgWired
    ∧ ¬ returnsStatus
        (globe.SendMsg demo.deps demo.gl demo.longMsg (Transport.fresh (demo.failAfterFirst "")))
        MsgStatusValue.MsgErrored := by
  have hw : returnsStatus
      (globe.SendMsg demo.deps demo.gl demo.longMsg (Transport.fresh (demo.failAfterFirst "")))
      MsgStatusValue.MsgWired := ⟨_, rfl, rfl⟩
  refine ⟨by decide, by decide, by decide, by decide, hw, fun he => ?_⟩
  exact absurd (returnsStatus_unique _ _ _ hw he) (by decide)

set_option maxRecDepth 100000 in
theorem sendMsg_status_after_failure_witness :
    globeConfigured demo.longMsg
    ∧ firstFailureAt (demo.failAfterFirst "")
        (segments demo.deps demo.longMsg globe.maxMsgLength).length 1
    ∧ returnsStatus
        (globe.SendMsg demo.deps demo.gl demo.longMsg (Transport.fresh (demo.failAfterFirst "")))
        MsgStatusValue.MsgWired
    ∧ credentialsSet demo.veryLongMsg
    ∧ firstFailureAt demo.allFail
        (segments demo.deps demo.veryLongMsg start.maxMsgLength).length 0
    ∧ returnsStatus
        (start.SendMsg demo.deps demo.st demo.veryLongMsg (Transport.fresh demo.allFail))
        MsgStatusValue.MsgErrored :=
  ⟨by decide, by decide,
    (sendMsg_status_after_failure demo.deps demo.gl demo.hx demo.st "courier.example.com"
      demo.longMsg (demo.failAfterFirst "")).1 (by decide) 1 (by decide),
    by decide, by decide,
    ((sendMsg_status_after_failure demo.deps demo.gl demo.hx demo.st "courier.example.com"
      demo.veryLongMsg demo.allFail).2.2 (by decide) 0 (by decide)).2
      (fun h => by obtain ⟨j, hj, _⟩ := h; exact absurd hj (by omega))⟩

theorem receiveStatus_maps_codes_witness :
    (demo.hxCodec (Except.ok { RetID := 12345, Status := 99 })).DecodeAndValidateForm
        demo.emptyRequest = Except.ok { RetID := 12345, Status := 99 }
    ∧ (99 : Int) ∉ ([2, 4, 6, 11, 12, 13, 14, 15, 16] : List Int)
    ∧ highconnection.receiveStatus (demo.hxCodec (Except.ok { RetID := 12345, Status := 99 }))
        demo.channel demo.emptyRequest
      = ReceiveResult.requestError (highconnection.unknownStatus 99)
    ∧ names (highconnection.unknownStatus 99) (toString (99 : Int)) :=
  ⟨rfl, by decide,
    (receiveStatus_maps_codes (demo.hxCodec (Except.ok { RetID := 12345, Status := 99 }))
      demo.channel demo.emptyRequest { RetID := 12345, Status := 99 } rfl).2.2.2 (by decide)⟩

theorem sendMsg_missing_config_witness :
    configMissing demo.bareMsg "app_id"
    ∧ (∃ err, globe.SendMsg demo.deps demo.gl demo.bareMsg (Transport.fresh demo.allFail)
          = (Except.error err, Transport.fresh demo.allFail) ∧ names err "app_id")
    ∧ configMissing demo.bareMsg "username"
    ∧ (∃ err, start.SendMsg demo.deps demo.st demo.bareMsg (Transport.fresh demo.allFail)
          = (Except.error err, Transport.fresh demo.allFail) ∧ names err "username") :=
  ⟨by decide,
    (sendMsg_missing_config demo.deps demo.gl demo.hx demo.st "courier.example.com"
      demo.bareMsg (Transport.fresh demo.allFail)).1 (by decide),
    by decide,
    ((sendMsg_missing_config demo.deps demo.gl demo.hx demo.st "courier.example.com"
      demo.bareMsg (Transport.fresh demo.allFail)).2.2.2.1 (by decide)).2⟩

set_option maxRecDepth 100000 in
theorem sendMsg_attempts_in_order_witness :
    globeConfigured demo.longMsg
    ∧ firstFailureAt (demo.failAfterFirst "")
        (segments demo.deps demo.longMsg globe.maxMsgLength).length 1
    ∧ attemptsExactly
        (globe.SendMsg demo.deps demo.gl demo.longMsg (Transport.fresh (demo.failAfterFirst "")))
        (((segments demo.deps demo.longMsg globe.maxMsgLength).take 2).map
          (globeRequestFor demo.gl demo.longMsg))
        2
    ∧ credentialsSet demo.veryLongMsg
    ∧ allSucceed (demo.allOk demo.accepted)
        (segments demo.deps demo.veryLongMsg start.maxMsgLength).length
    ∧ attemptsExactly
        (start.SendMsg demo.deps demo.st demo.veryLongMsg
          (Transport.fresh (demo.allOk demo.accepted)))
        ((segments demo.deps demo.veryLongMsg start.maxMsgLength).map
          (startRequestFor demo.veryLongMsg))
        (segments demo.deps demo.veryLongMsg start.maxMsgLength).length :=
  ⟨by decide, by decide,
    ((sendMsg_attempts_in_order demo.deps demo.gl demo.hx demo.st "courier.example.com"
      demo.longMsg (demo.failAfterFirst "")).1 (by decide)).2 1 (by decide),
    by decide, by decide,
    ((sendMsg_attempts_in_order demo.deps demo.gl demo.hx demo.st "courier.example.com"
      demo.veryLongMsg (demo.allOk demo.accepted)).2.2 (by decide)).1 (by decide)⟩

/-- C5 fails as stated: a Start message of one segment whose call succeeds with
an empty response body comes back Errored, not Wired. -/
theorem sendMsg_all_succeed_counterexample :
    credentialsSet demo.msg
    ∧ (segments demo.deps demo.msg start.maxMsgLength).length = 1
    ∧ allSucceed (demo.allOk "") 1
    ∧ returnsStatus (start.SendMsg demo.deps demo.st demo.msg (Transport.fresh (demo.allOk "")))
        MsgStatusValue.MsgErrored
    ∧ ¬ returnsStatus
        (start.SendMsg demo.deps demo.st demo.msg (Transport.fresh (demo.allOk "")))
        MsgStatusValue.MsgWired := by
  have he : returnsStatus
      (start.SendMsg demo.deps demo.st demo.msg (Transport.fresh (demo.allOk "")))
      MsgStatusValue.MsgErrored := ⟨_, rfl, rfl⟩
  refine ⟨by decide, by decide, by decide, he, fun hw => ?_⟩
  exact absurd (returnsStatus_unique _ _ _ he hw) (by decide)

theorem sendMsg_status_all_succeed_witness :
    globeConfigured demo.msg
    ∧ segments demo.deps demo.msg globe.maxMsgLength ≠ []
    ∧ allSucceed (demo.allOk "") (segments demo.deps demo.msg globe.maxMsgLength).length
    ∧ returnsStatus (globe.SendMsg demo.deps demo.gl demo.msg (Transport.fresh (demo.allOk "")))
        MsgStatusValue.MsgWired
    ∧ credentialsSet demo.msg
    ∧ someParsed demo.st (demo.allOk demo.accepted)
        (segments demo.deps demo.msg start.maxMsgLength).length
    ∧ returnsStatus
        (start.SendMsg demo.deps demo.st demo.msg (Transport.fresh (demo.allOk demo.accepted)))
        MsgStatusValue.MsgWired :=
  ⟨by decide, by decide, by decide,
    (sendMsg_status_all_succeed demo.deps demo.gl demo.hx demo.st "courier.example.com"
      demo.msg (demo.allOk "")).1 (by decide) (by decide) (by decide),
    by decide,
    ⟨0, by decide, _, rfl⟩,
    ((sendMsg_status_all_succeed demo.deps demo.gl demo.hx demo.st "courier.example.com"
      demo.msg (demo.allOk demo.accepted)).2.2 (by decide) (by decide)).1 ⟨0, by decide, _, rfl⟩⟩

set_option maxRecDepth 100000 in
theorem start_externalID_from_first_segment_witness :
    demo.failAfterFirst demo.accepted 0 = demo.allOk demo.accepted 0
    ∧ (start.SendMsg demo.deps demo.st demo.veryLongMsg
          (Transport.fresh (demo.failAfterFirst demo.accepted))).1.map (fun st => st.ExternalID)
        = (start.SendMsg demo.deps demo.st demo.veryLongMsg
          (Transport.fresh (demo.allOk demo.accepted))).1.map (fun st => st.ExternalID)
    ∧ credentialsSet demo.veryLongMsg
    ∧ segments demo.deps demo.veryLongMsg start.maxMsgLength ≠ []
    ∧ returnsExternalID
        (start.SendMsg demo.deps demo.st demo.veryLongMsg
          (Transport.fresh (demo.failAfterFirst demo.accepted)))
        (some "380502535130309161501") :=
  ⟨by decide,
    (start_externalID_from_first_segment demo.deps demo.st demo.veryLongMsg
      (demo.failAfterFirst demo.accepted) (demo.allOk demo.accepted)).1 (by decide),
    by decide, by decide,
    ((start_externalID_from_first_segment demo.deps demo.st demo.veryLongMsg
      (demo.failAfterFirst demo.accepted) (demo.allOk demo.accepted)).2 (by decide)
        (by decide)).2 { ID := "380502535130309161501", State := "Accepted" } (by decide) rfl⟩

set_option maxRecDepth 100000 in
/-- C7 fails as stated: a Start message of two segments whose first call
succeeds with a vendor id and whose second call fails still carries that id. -/
theorem start_externalID_counterexample :
    credentialsSet demo.veryLongMsg
    ∧ (segments demo.deps demo.veryLongMsg start.maxMsgLength).length = 2
    ∧ (demo.failAfterFirst demo.accepted 0).err = none
    ∧ demo.st.xmlUnmarshal (demo.failAfterFirst demo.accepted 0).rr.Body
        = Except.ok { ID := "380502535130309161501", State := "Accepted" }
    ∧ (demo.failAfterFirst demo.accepted 1).err ≠ none
    ∧ returnsExternalID
        (start.SendMsg demo.deps demo.st demo.veryLongMsg
          (Transport.fresh (demo.failAfterFirst demo.accepted)))
        (some "380502535130309161501")
    ∧ ¬ returnsExternalID
        (start.SendMsg demo.deps demo.st demo.veryLongMsg
          (Transport.fresh (demo.failAfterFirst demo.accepted)))
        none := by
  have hs : returnsExternalID
      (start.SendMsg demo.deps demo.st demo.veryLongMsg
        (Transport.fresh (demo.failAfterFirst demo.accepted)))
      (some "380502535130309161501") := ⟨_, rfl, rfl⟩
  refine ⟨by decide, by decide, by decide, rfl, by decide, hs, fun hn => ?_⟩
  exact absurd (returnsExternalID_unique _ _ _ hs hn) (by decide)

set_option maxRecDepth 100000 in
theorem start_externalID_kept_after_failure_witness :
    credentialsSet demo.veryLongMsg
    ∧ 2 ≤ (segments demo.deps demo.veryLongMsg start.maxMsgLength).length
    ∧ (demo.failAfterFirst demo.accepted 1).err ≠ none
    ∧ returnsExternalID
        (start.SendMsg demo.deps demo.st demo.veryLongMsg
          (Transport.fresh (demo.failAfterFirst demo.accepted)))
        (some "380502535130309161501") :=
  ⟨by decide, by decide, by decide,
    start_externalID_kept_after_failure demo.deps demo.st demo.veryLongMsg
      (demo.failAfterFirst demo.accepted)
      { ID := "380502535130309161501", State := "Accepted" } 1
      (by decide) (by decide) (by decide) rfl (by decide) (by decide)⟩

theorem globe_receiveMessage_all_or_nothing_witness :
    globe.receiveMessage demo.deps
        (demo.globeCodec (Except.ok { InboundSMSMessage := [demo.goodEntry] }))
        demo.channel demo.emptyRequest
      = ReceiveResult.wroteMsgs
          [IncomingMsg.mk demo.channel (URN.mk "tel" "+639171234567") "Hello" "" 1385122333]
    ∧ HasPrefix demo.badEntry.SenderAddress "tel:" = false
    ∧ (∃ err, globe.receiveMessage demo.deps
          (demo.globeCodec (Except.ok { InboundSMSMessage := [demo.goodEntry, demo.badEntry] }))
          demo.channel demo.emptyRequest = ReceiveResult.requestError err)
    ∧ ∀ msgs, globe.receiveMessage demo.deps
          (demo.globeCodec (Except.ok { InboundSMSMessage := [demo.goodEntry, demo.badEntry] }))
          demo.channel demo.emptyRequest ≠ ReceiveResult.wroteMsgs msgs :=
  ⟨by decide, by decide,
    globe_receiveMessage_all_or_nothing demo.deps
      (demo.globeCodec (Except.ok { InboundSMSMessage := [demo.goodEntry, demo.badEntry] }))
      demo.channel demo.emptyRequest { InboundSMSMessage := [demo.goodEntry, demo.badEntry] }
      rfl ⟨demo.badEntry, by decide, Or.inr (Or.inl (by decide))⟩⟩

set_option maxRecDepth 100000 in
/-- C10 fails as stated: for the URN path `+250788383383` the High Connection
form and the Start document carry the number with its leading `+`. -/
theorem destination_number_counterexample :
    demo.msg.URN.Path = "+250788383383"
    ∧ credentialsSet demo.msg
    ∧ (hxFormFor "courier.example.com" demo.msg "Simple Message").lookup "to"
        = some ["+250788383383"]
    ∧ (highconnection.SendMsg demo.deps demo.hx "courier.example.com" demo.msg
          (Transport.fresh (demo.allOk ""))).2.sent
        = [hxRequestFor demo.hx "courier.example.com" demo.msg "Simple Message"]
    ∧ (start.partPayload demo.msg "Simple Message").To = "+250788383383"
    ∧ (start.SendMsg demo.deps demo.st demo.msg
          (Transport.fresh (demo.allOk demo.accepted))).2.sent.map (fun req => req.Body)
        = [some (start.xmlDocument (start.partPayload demo.msg "Simple Message"))]
    ∧ names (start.xmlDocument (start.partPayload demo.msg "Simple Message"))
        "<to>+250788383383</to>"
    ∧ HasPrefix "+250788383383" "+" = true := by
  decide

theorem destination_number_in_requests_witness :
    demo.msg.URN.Path = "+" ++ "250788383383"
    ∧ (globeRequestFor demo.gl demo.msg "Simple Message").Body
        = some (demo.gl.jsonEncode
            { Address := "250788383383", Message := "Simple Message",
              Passphrase := "opensesame", AppID := "12345", AppSecret := "mysecret" })
    ∧ HasPrefix "250788383383" "+" = false :=
  ⟨by decide,
    (destination_number_in_requests demo.deps demo.gl demo.hx demo.st "courier.example.com"
      demo.msg "250788383383" (demo.allOk "") (by decide) (by decide)).1 "Simple Message",
    (destination_number_in_requests demo.deps demo.gl demo.hx demo.st "courier.example.com"
      demo.msg "250788383383" (demo.allOk "") (by decide) (by decide)).2.1⟩

end courier
